import Mathlib

/-!
MyApp controller: the reconcile loop.

A shallow embedding of `controllers/myapp_controller.go`.

`MyAppReconciler.Reconcile` is translated line by line.  It drives three
collaborators that live outside that file and are embedded here as follows.

* The cluster API behind `client.Client` (`Get`, `Create`, `Update`) is a store of
  objects keyed by kind, namespace and name that persists exactly what is written.
  Every call is appended to a call log.  A failure of the environment (network
  error, concurrent writer) is an injected fault: the world carries a script with
  one entry per upcoming call, and a call whose entry is an error fails with it
  and leaves the stored objects alone.
* `ctrl.CreateOrUpdate` and `controllerutil.SetControllerReference` come from the
  controller-runtime library that the file imports; they are embedded after that
  library, helper by helper.
* `MutateDeployment` and `MutateService` are defined in another file of the
  repository.  `Reconcile` takes them as parameters (`Mutators`); a pair modelled
  from the specification is used to evaluate `Reconcile` on concrete inputs.
-/

namespace OpDemo

/-! ## Data model -/

/-- Key of a request and of an object: Go `types.NamespacedName`. -/
structure NamespacedName where
  Namespace : String
  Name : String
deriving DecidableEq, Repr

/-- Go `schema.GroupVersionKind`. -/
structure GroupVersionKind where
  Group : String
  Version : String
  Kind : String
deriving DecidableEq, Repr

/-- Go `metav1.OwnerReference`.  The `APIVersion` string `group/version` is kept
split into its two parts, and the two `*bool` fields are plain booleans
(a nil pointer reads as `false`). -/
structure OwnerReference where
  Group : String
  Version : String
  Kind : String
  Name : String
  UID : String
  Controller : Bool
  BlockOwnerDeletion : Bool
deriving DecidableEq, Repr

/-- Go `metav1.ObjectMeta`, restricted to the fields the reconcile loop reads or writes
plus the two identity fields assigned by the platform. -/
structure ObjectMeta where
  Name : String
  Namespace : String
  UID : String
  ResourceVersion : String
  OwnerReferences : List OwnerReference
deriving DecidableEq, Repr

/-- Modelled from the spec: the desired attributes held by the parent (its type is
declared in `api/v1beta1`): replica count, container image, exposed ports. -/
structure MyAppSpec where
  Size : Nat
  Image : String
  Ports : List Nat
deriving DecidableEq, Repr

/-- The parent resource `appv1beta1.MyApp`. -/
structure MyApp where
  ObjectMeta : ObjectMeta
  Spec : MyAppSpec
deriving DecidableEq, Repr

/-- Payload of the workload child (`appsv1.DeploymentSpec`): replica count, selector
labels, pod template (labels, image, container ports), and one field, `Paused`, that
stands for the fields other actors own. -/
structure DeploymentSpec where
  Replicas : Nat
  Selector : List (String × String)
  TemplateLabels : List (String × String)
  Image : String
  ContainerPorts : List Nat
  Paused : Bool
deriving DecidableEq, Repr

/-- Status subresource of the workload child. -/
structure DeploymentStatus where
  ReadyReplicas : Nat
deriving DecidableEq, Repr

/-- The workload child `appsv1.Deployment`. -/
structure Deployment where
  ObjectMeta : ObjectMeta
  Spec : DeploymentSpec
  Status : DeploymentStatus
deriving DecidableEq, Repr

/-- Payload of the network child (`corev1.ServiceSpec`): ports, selector, and the
cluster IP that the platform assigns. -/
structure ServiceSpec where
  ClusterIP : String
  Ports : List Nat
  Selector : List (String × String)
deriving DecidableEq, Repr

/-- The network child `corev1.Service`. -/
structure Service where
  ObjectMeta : ObjectMeta
  Spec : ServiceSpec
deriving DecidableEq, Repr

/-- The three resource kinds the controller deals with. -/
inductive Kind
  | MyApp
  | Deployment
  | Service
deriving DecidableEq, Repr

/-- The verbs of `client.Client` (the same list as the RBAC markers of the controller). -/
inductive Verb
  | get
  | list
  | watch
  | create
  | update
  | patch
  | delete
deriving DecidableEq, Repr

/-- Errors a reconciliation can meet.  The first four come from the store, the other
five are raised in process by `CreateOrUpdate` and `SetControllerReference`. -/
inductive ApiError
  | NotFound
  | AlreadyExists
  | Conflict
  | Unavailable (code : Nat)
  | AlreadyOwned (owner : OwnerReference)
  | ClusterScopedOwned
  | CrossNamespaceOwner
  | NoGroupVersionKind
  | MultipleGroupVersionKinds
  | MutatedKey
deriving DecidableEq, Repr

/-- One call issued to the store, with the error it returned (if any). -/
structure ApiCall where
  verb : Verb
  kind : Kind
  key : NamespacedName
  err : Option ApiError
deriving DecidableEq, Repr

/-- The objects held by the store, per kind. -/
structure Cluster where
  MyApps : NamespacedName → Option MyApp
  Deployments : NamespacedName → Option Deployment
  Services : NamespacedName → Option Service

/-- The world a reconciliation runs in: the stored objects, the script of injected
faults (one entry per upcoming call, `none` for a call that goes through), and the
log of the calls issued so far. -/
structure World where
  cluster : Cluster
  faults : List (Option ApiError)
  calls : List ApiCall

/-- Go `controllerutil.OperationResult`: `OperationResultNone` is the string
"unchanged", `OperationResultCreated` is "created", `OperationResultUpdated` is
"updated". -/
inductive OperationResult
  | unchanged
  | created
  | updated
deriving DecidableEq, Repr

/-- Go `ctrl.Result`. -/
structure Result where
  Requeue : Bool := false
  RequeueAfter : Nat := 0
deriving DecidableEq, Repr

/-- What a reader of kind-generic library code needs of an object type: its kind,
its metadata and the table of the store it lives in. -/
class KubeObject (α : Type) where
  kind : Kind
  getMeta : α → ObjectMeta
  lookup : Cluster → NamespacedName → Option α

/-- A child object type: it can also be written to the store and have its owner
references set.  The laws say that `put` is a write to one cell of one table. -/
class ChildObject (α : Type) extends KubeObject α where
  setOwnerReferences : α → List OwnerReference → α
  put : Cluster → NamespacedName → α → Cluster
  getMeta_setOwnerReferences : ∀ o l,
    getMeta (setOwnerReferences o l) = { getMeta o with OwnerReferences := l }
  setOwnerReferences_self : ∀ o, setOwnerReferences o (getMeta o).OwnerReferences = o
  setOwnerReferences_twice : ∀ o l m,
    setOwnerReferences (setOwnerReferences o l) m = setOwnerReferences o m
  lookup_put_same : ∀ c k o, lookup (put c k o) k = some o
  lookup_put_other : ∀ c k o j, j ≠ k → lookup (put c k o) j = lookup c j
  put_MyApps : ∀ c k o, (put c k o).MyApps = c.MyApps
  put_Deployments : ∀ c k o j, (kind = Kind.Deployment → j ≠ k) →
    (put c k o).Deployments j = c.Deployments j
  put_Services : ∀ c k o j, (kind = Kind.Service → j ≠ k) →
    (put c k o).Services j = c.Services j

instance : KubeObject MyApp where
  kind := Kind.MyApp
  getMeta := fun a => a.ObjectMeta
  lookup := fun c => c.MyApps

instance : ChildObject Deployment where
  kind := Kind.Deployment
  getMeta := fun d => d.ObjectMeta
  lookup := fun c => c.Deployments
  setOwnerReferences := fun d l => { d with ObjectMeta := { d.ObjectMeta with OwnerReferences := l } }
  put := fun c k d => { c with Deployments := Function.update c.Deployments k (some d) }
  getMeta_setOwnerReferences := by intros; rfl
  setOwnerReferences_self := by intros; rfl
  setOwnerReferences_twice := by intros; rfl
  lookup_put_same := by intro c k o; simp
  lookup_put_other := by intro c k o j h; simp [Function.update, h]
  put_MyApps := by intros; rfl
  put_Deployments := by intro c k o j h; simp [Function.update, h]
  put_Services := by intros; rfl

instance : ChildObject Service where
  kind := Kind.Service
  getMeta := fun s => s.ObjectMeta
  lookup := fun c => c.Services
  setOwnerReferences := fun s l => { s with ObjectMeta := { s.ObjectMeta with OwnerReferences := l } }
  put := fun c k s => { c with Services := Function.update c.Services k (some s) }
  getMeta_setOwnerReferences := by intros; rfl
  setOwnerReferences_self := by intros; rfl
  setOwnerReferences_twice := by intros; rfl
  lookup_put_same := by intro c k o; simp
  lookup_put_other := by intro c k o j h; simp [Function.update, h]
  put_MyApps := by intros; rfl
  put_Deployments := by intros; rfl
  put_Services := by intro c k o j h; simp [Function.update, h]

/-! ## The store client -/

/-- Go `client.ObjectKeyFromObject`: the key an object is stored under. -/
def ObjectKeyFromObject {α : Type} [KubeObject α] (obj : α) : NamespacedName :=
  { Namespace := (KubeObject.getMeta obj).Namespace, Name := (KubeObject.getMeta obj).Name }

/-- The fault injected into the next call, if any. -/
def World.injected (w : World) : Option ApiError :=
  w.faults.head?.join

/-- The world after one call: the fault entry is consumed and the call is logged. -/
def World.record (w : World) (verb : Verb) (kind : Kind) (key : NamespacedName)
    (err : Option ApiError) (c : Cluster) : World :=
  { cluster := c, faults := w.faults.tail,
    calls := w.calls ++ [{ verb := verb, kind := kind, key := key, err := err }] }

/-- The call `client.Get` (the `get` of the resource store): read the object stored under
`key`; `NotFound` when there is none; the injected fault when there is one. -/
def Get {α : Type} [KubeObject α] (key : NamespacedName) (w : World) :
    Except ApiError α × World :=
  match w.injected with
  | some e => (Except.error e, w.record Verb.get (KubeObject.kind α) key (some e) w.cluster)
  | none =>
    match KubeObject.lookup w.cluster key with
    | some o => (Except.ok o, w.record Verb.get (KubeObject.kind α) key none w.cluster)
    | none =>
      (Except.error ApiError.NotFound,
        w.record Verb.get (KubeObject.kind α) key (some ApiError.NotFound) w.cluster)

/-- The call `client.Create` (the `create` of the resource store): store a new object
under its own key; `AlreadyExists` when one is there; the injected fault when there is
one, the store being left as it is. -/
def Create {α : Type} [ChildObject α] (obj : α) (w : World) : Except ApiError Unit × World :=
  let key := ObjectKeyFromObject obj
  match w.injected with
  | some e => (Except.error e, w.record Verb.create (KubeObject.kind α) key (some e) w.cluster)
  | none =>
    match (KubeObject.lookup w.cluster key : Option α) with
    | some _ =>
      (Except.error ApiError.AlreadyExists,
        w.record Verb.create (KubeObject.kind α) key (some ApiError.AlreadyExists) w.cluster)
    | none =>
      (Except.ok (), w.record Verb.create (KubeObject.kind α) key none
        (ChildObject.put w.cluster key obj))

/-- The call `client.Update` (the `update` of the resource store): replace the object
stored under its own key; `NotFound` when there is none; the injected fault, a
concurrent-modification `Conflict` for instance, when there is one, the store being
left as it is. -/
def Update {α : Type} [ChildObject α] (obj : α) (w : World) : Except ApiError Unit × World :=
  let key := ObjectKeyFromObject obj
  match w.injected with
  | some e => (Except.error e, w.record Verb.update (KubeObject.kind α) key (some e) w.cluster)
  | none =>
    match (KubeObject.lookup w.cluster key : Option α) with
    | none =>
      (Except.error ApiError.NotFound,
        w.record Verb.update (KubeObject.kind α) key (some ApiError.NotFound) w.cluster)
    | some _ =>
      (Except.ok (), w.record Verb.update (KubeObject.kind α) key none
        (ChildObject.put w.cluster key obj))

/-- Go `client.IgnoreNotFound`: nil for a not-found error, the error itself otherwise. -/
def IgnoreNotFound (err : ApiError) : Option ApiError :=
  if err = ApiError.NotFound then none else some err

/-! ## controllerutil -/

/-- Go `referSameObject`: two references name the same object when API group, kind and
name agree (the version and the UID are not compared). -/
def referSameObject (a b : OwnerReference) : Bool :=
  a.Group == b.Group && a.Kind == b.Kind && a.Name == b.Name

/-- Go `metav1.GetControllerOf`: the first owner reference flagged as controller. -/
def GetControllerOf (refs : List OwnerReference) : Option OwnerReference :=
  refs.find? (fun r => r.Controller)

/-- Go `indexOwnerRef`: position of the first reference to the same object as `ref`. -/
def indexOwnerRef : List OwnerReference → OwnerReference → Option Nat
  | [], _ => none
  | r :: rs, ref =>
    if referSameObject r ref then some 0
    else (indexOwnerRef rs ref).map (fun i => i + 1)

/-- Go `upsertOwnerRef`: overwrite the reference to the same object, or append. -/
def upsertOwnerRef (ref : OwnerReference) (owners : List OwnerReference) :
    List OwnerReference :=
  match indexOwnerRef owners ref with
  | none => owners ++ [ref]
  | some idx => owners.set idx ref

/-- Go `validateOwner`: a namespaced owner needs a child in the same namespace. -/
def validateOwner (ownerNs objNs : String) : Except ApiError Unit :=
  if ownerNs ≠ "" then
    if objNs = "" then Except.error ApiError.ClusterScopedOwned
    else if ownerNs ≠ objNs then Except.error ApiError.CrossNamespaceOwner
    else Except.ok ()
  else Except.ok ()

/-- Go `validateControllerRef`: an object already controlled by another object is refused. -/
def validateControllerRef (refs : List OwnerReference) (ref : OwnerReference) :
    Except ApiError Unit :=
  match GetControllerOf refs with
  | some existing =>
    if referSameObject existing ref then Except.ok () else Except.error (ApiError.AlreadyOwned existing)
  | none => Except.ok ()

/-- Go `apiutil.GVKForObject` for the parent type: `scheme` lists the kinds the
runtime scheme associates with the Go type `MyApp`; exactly one is required. -/
def GVKForObject (scheme : List GroupVersionKind) : Except ApiError GroupVersionKind :=
  match scheme with
  | [] => Except.error ApiError.NoGroupVersionKind
  | [gvk] => Except.ok gvk
  | _ :: _ :: _ => Except.error ApiError.MultipleGroupVersionKinds

/-- The controller reference to `owner` under `gvk` (Go `metav1.NewControllerRef`). -/
def NewControllerRef (owner : ObjectMeta) (gvk : GroupVersionKind) : OwnerReference :=
  { Group := gvk.Group, Version := gvk.Version, Kind := gvk.Kind,
    Name := owner.Name, UID := owner.UID,
    Controller := true, BlockOwnerDeletion := true }

/-- Go `controllerutil.SetControllerReference` (the ownership binder), in the form it
has since `validateOwner`, `validateControllerRef` and `upsertOwnerRef` were split
out: validate the owner, build the reference, refuse an object controlled by somebody
else, upsert. -/
def SetControllerReference {α : Type} [ChildObject α] (owner : ObjectMeta) (controlled : α)
    (scheme : List GroupVersionKind) : Except ApiError α :=
  match validateOwner owner.Namespace (KubeObject.getMeta controlled).Namespace with
  | Except.error e => Except.error e
  | Except.ok _ =>
    match GVKForObject scheme with
    | Except.error e => Except.error e
    | Except.ok gvk =>
      let ref := NewControllerRef owner gvk
      match validateControllerRef (KubeObject.getMeta controlled).OwnerReferences ref with
      | Except.error e => Except.error e
      | Except.ok _ =>
        Except.ok (ChildObject.setOwnerReferences controlled
          (upsertOwnerRef ref (KubeObject.getMeta controlled).OwnerReferences))

/-- Go `controllerutil.mutate`: run the callback, then refuse a changed name or namespace. -/
def mutate {α : Type} [KubeObject α] (f : α → Except ApiError α) (key : NamespacedName)
    (obj : α) : Except ApiError α :=
  match f obj with
  | Except.error e => Except.error e
  | Except.ok obj1 =>
    if ObjectKeyFromObject obj1 = key then Except.ok obj1 else Except.error ApiError.MutatedKey

/-- Go `controllerutil.CreateOrUpdate`: fetch the object under the key of `obj`; when
there is none, mutate `obj` and create it; otherwise mutate the fetched object and
update it unless the mutation changed nothing.  The test
`equality.Semantic.DeepEqual(existing, obj)` is equality of the two values.  Each
store call is made once: an error of `Get` (other than not-found), of the callback, of
`Create` or of `Update` is returned at once. -/
def CreateOrUpdate {α : Type} [ChildObject α] [DecidableEq α] (obj : α)
    (f : α → Except ApiError α) (w : World) : Except ApiError OperationResult × World :=
  let key := ObjectKeyFromObject obj
  match (Get key w : Except ApiError α × World) with
  | (Except.error e, w1) =>
    if e ≠ ApiError.NotFound then (Except.error e, w1)
    else
      match mutate f key obj with
      | Except.error e1 => (Except.error e1, w1)
      | Except.ok obj1 =>
        match Create obj1 w1 with
        | (Except.error e2, w2) => (Except.error e2, w2)
        | (Except.ok _, w2) => (Except.ok OperationResult.created, w2)
  | (Except.ok existing, w1) =>
    match mutate f key existing with
    | Except.error e1 => (Except.error e1, w1)
    | Except.ok obj1 =>
      if existing = obj1 then (Except.ok OperationResult.unchanged, w1)
      else
        match Update obj1 w1 with
        | (Except.error e2, w2) => (Except.error e2, w2)
        | (Except.ok _, w2) => (Except.ok OperationResult.updated, w2)

/-! ## The reconciler -/

/-- The two desired-state mutators, which the repository defines outside the
controller file. -/
structure Mutators where
  MutateDeployment : MyApp → Deployment → Deployment
  MutateService : MyApp → Service → Service

/-- Go `MyAppReconciler`, without its client (the `World` argument of `Reconcile`) and
its logger (the `infos` of the outcome): the scheme, as the list of kinds it
associates with the parent type. -/
structure MyAppReconciler where
  Scheme : List GroupVersionKind

/-- What one invocation of `Reconcile` yields: the returned pair, the world it leaves,
and the `CreateOrUpdate` lines it logged. -/
structure Outcome where
  result : Result
  err : Option ApiError
  world : World
  infos : List (Kind × OperationResult)

/-- Zero value of `metav1.ObjectMeta`. -/
def ObjectMeta.empty : ObjectMeta :=
  { Name := "", Namespace := "", UID := "", ResourceVersion := "", OwnerReferences := [] }

/-- The declaration `var deploy appsv1.Deployment` followed by the two assignments of
name and namespace. -/
def newDeployment (myapp : MyApp) : Deployment :=
  { ObjectMeta := { ObjectMeta.empty with
      Name := myapp.ObjectMeta.Name, Namespace := myapp.ObjectMeta.Namespace },
    Spec := { Replicas := 0, Selector := [], TemplateLabels := [], Image := "",
              ContainerPorts := [], Paused := false },
    Status := { ReadyReplicas := 0 } }

/-- The declaration `var svc corev1.Service` followed by the two assignments of name
and namespace. -/
def newService (myapp : MyApp) : Service :=
  { ObjectMeta := { ObjectMeta.empty with
      Name := myapp.ObjectMeta.Name, Namespace := myapp.ObjectMeta.Namespace },
    Spec := { ClusterIP := "", Ports := [], Selector := [] } }

/-- The callback passed to the first `CreateOrUpdate`. -/
def deploymentMutateFn (μ : Mutators) (r : MyAppReconciler) (myapp : MyApp)
    (deploy : Deployment) : Except ApiError Deployment :=
  SetControllerReference myapp.ObjectMeta (μ.MutateDeployment myapp deploy) r.Scheme

/-- The callback passed to the second `CreateOrUpdate`. -/
def serviceMutateFn (μ : Mutators) (r : MyAppReconciler) (myapp : MyApp)
    (svc : Service) : Except ApiError Service :=
  SetControllerReference myapp.ObjectMeta (μ.MutateService myapp svc) r.Scheme

/-- Go `MyAppReconciler.Reconcile`. -/
def Reconcile (μ : Mutators) (r : MyAppReconciler) (req : NamespacedName) (w : World) :
    Outcome :=
  match (Get req w : Except ApiError MyApp × World) with
  | (Except.error e, w1) =>
    { result := {}, err := IgnoreNotFound e, world := w1, infos := [] }
  | (Except.ok myapp, w1) =>
    match CreateOrUpdate (newDeployment myapp) (deploymentMutateFn μ r myapp) w1 with
    | (Except.error e, w2) => { result := {}, err := some e, world := w2, infos := [] }
    | (Except.ok or1, w2) =>
      match CreateOrUpdate (newService myapp) (serviceMutateFn μ r myapp) w2 with
      | (Except.error e, w3) =>
        { result := {}, err := some e, world := w3, infos := [(Kind.Deployment, or1)] }
      | (Except.ok or2, w3) =>
        { result := {}, err := none, world := w3,
          infos := [(Kind.Deployment, or1), (Kind.Service, or2)] }

/-! ## Mutators modelled from the specification -/

/-- Modelled from the spec: `MutateDeployment`, defined in a file of the repository
other than the controller.  It sets the fields of its domain (replica count,
container image and ports, selector labels) from the parent and leaves the rest. -/
def MutateDeployment (app : MyApp) (deploy : Deployment) : Deployment :=
  { deploy with Spec := { deploy.Spec with
      Replicas := app.Spec.Size,
      Selector := [("myapp", app.ObjectMeta.Name)],
      TemplateLabels := [("myapp", app.ObjectMeta.Name)],
      Image := app.Spec.Image,
      ContainerPorts := app.Spec.Ports } }

/-- Modelled from the spec: `MutateService`, defined in a file of the repository
other than the controller.  It sets the exposed ports and the selector from the
parent and keeps the cluster IP the platform assigned. -/
def MutateService (app : MyApp) (svc : Service) : Service :=
  { svc with Spec := { svc.Spec with
      Ports := app.Spec.Ports,
      Selector := [("myapp", app.ObjectMeta.Name)] } }

/-- The pair of mutators modelled from the specification. -/
def specMutators : Mutators :=
  { MutateDeployment := MutateDeployment, MutateService := MutateService }

/-! ## Concrete inputs -/

/-- The group, version and kind of the parent: group `app.shimo.im` (the RBAC markers),
version `v1beta1` (the import path of the API package), kind `MyApp`. -/
def myAppGVK : GroupVersionKind :=
  { Group := "app.shimo.im", Version := "v1beta1", Kind := "MyApp" }

/-- A reconciler whose scheme knows the parent type. -/
def demoReconciler : MyAppReconciler := { Scheme := [myAppGVK] }

/-- The key `default/demo`. -/
def demoKey : NamespacedName := { Namespace := "default", Name := "demo" }

/-- The parent of the scenario of the specification: two replicas of `nginx:1.0` on port 80. -/
def demoApp : MyApp :=
  { ObjectMeta := { Name := "demo", Namespace := "default", UID := "uid-1",
                    ResourceVersion := "7", OwnerReferences := [] },
    Spec := { Size := 2, Image := "nginx:1.0", Ports := [80] } }

/-- A store with no object at all. -/
def emptyCluster : Cluster :=
  { MyApps := fun _ => none, Deployments := fun _ => none, Services := fun _ => none }

/-- A store holding the parent `demoApp` and nothing else. -/
def demoCluster : Cluster :=
  { emptyCluster with MyApps := fun k => if k = demoKey then some demoApp else none }

/-- A world over `c` with the fault script `fs` and an empty call log. -/
def World.start (c : Cluster) (fs : List (Option ApiError)) : World :=
  { cluster := c, faults := fs, calls := [] }


/-! ## Names for the steps of `Reconcile` and for the properties stated about them -/

/-- The first statement of `Reconcile`: fetch the parent under the request key. -/
abbrev parentFetch (req : NamespacedName) (w : World) : Except ApiError MyApp × World :=
  Get req w

/-- The first `CreateOrUpdate` of `Reconcile`, for the Deployment child. -/
abbrev deploymentStep (μ : Mutators) (r : MyAppReconciler) (myapp : MyApp) (w : World) :
    Except ApiError OperationResult × World :=
  CreateOrUpdate (newDeployment myapp) (deploymentMutateFn μ r myapp) w

/-- The second `CreateOrUpdate` of `Reconcile`, for the Service child. -/
abbrev serviceStep (μ : Mutators) (r : MyAppReconciler) (myapp : MyApp) (w : World) :
    Except ApiError OperationResult × World :=
  CreateOrUpdate (newService myapp) (serviceMutateFn μ r myapp) w

/-- Whether a verb writes to the store. -/
def Verb.isWrite : Verb → Bool
  | Verb.create => true
  | Verb.update => true
  | Verb.patch => true
  | Verb.delete => true
  | _ => false

/-- The calls of a log that write an object of kind `K`. -/
def writesOf (K : Kind) (cs : List ApiCall) : List ApiCall :=
  cs.filter (fun c => c.verb.isWrite && decide (c.kind = K))

/-- The mutators are stable: run on their own output, whatever owner references it
has been given since, they change nothing. -/
def Mutators.Stable (μ : Mutators) : Prop :=
  (∀ a d l, μ.MutateDeployment a (ChildObject.setOwnerReferences (μ.MutateDeployment a d) l)
      = ChildObject.setOwnerReferences (μ.MutateDeployment a d) l) ∧
  (∀ a s l, μ.MutateService a (ChildObject.setOwnerReferences (μ.MutateService a s) l)
      = ChildObject.setOwnerReferences (μ.MutateService a s) l)

/-- The mutators leave the metadata of the child alone. -/
def Mutators.KeepsMeta (μ : Mutators) : Prop :=
  (∀ a d, (μ.MutateDeployment a d).ObjectMeta = d.ObjectMeta) ∧
  (∀ a s, (μ.MutateService a s).ObjectMeta = s.ObjectMeta)

/-- Shape of the calls of one create-or-update step that returned `res`: a fetch under
kind `K` and key `key`, then at most one create or update under the same kind and key.
A failed fetch other than not-found and a failed write are what the step returns, a
write that went through means the step succeeded, an update follows a successful fetch
only, and an unchanged object means no write. -/
def StepTrace (K : Kind) (key : NamespacedName) (res : Except ApiError OperationResult)
    (cs : List ApiCall) : Prop :=
  ∃ ge ws, cs = ApiCall.mk Verb.get K key ge :: ws ∧
    (∀ e, ge = some e → e ≠ ApiError.NotFound → res = Except.error e ∧ ws = []) ∧
    (res = Except.ok OperationResult.unchanged → ge = none ∧ ws = []) ∧
    (ws = [] ∨ ∃ v we, (v = Verb.create ∨ v = Verb.update) ∧
      ws = [ApiCall.mk v K key we] ∧
      (v = Verb.update → ge = none) ∧
      (∀ e, we = some e → res = Except.error e) ∧
      (we = none → ∃ x, res = Except.ok x))


/-! ## More concrete inputs -/

/-- The controller reference to the parent `demoApp`. -/
def demoOwner : OwnerReference :=
  { Group := "app.shimo.im", Version := "v1beta1", Kind := "MyApp", Name := "demo",
    UID := "uid-1", Controller := true, BlockOwnerDeletion := true }

/-- The controller reference to an earlier parent of the same name, deleted since: the
same group, kind and name as `demoApp`, another unique id. -/
def earlierOwner : OwnerReference :=
  { demoOwner with UID := "uid-0" }

/-- The controller reference to an object of another kind. -/
def foreignOwner : OwnerReference :=
  { Group := "example.org", Version := "v1", Kind := "OtherApp", Name := "other",
    UID := "uid-9", Controller := true, BlockOwnerDeletion := true }

/-- A stored Deployment under `default/demo` with the given owner references, running
one replica of `nginx:0.9`. -/
def storedDeployment (owners : List OwnerReference) : Deployment :=
  { ObjectMeta := { Name := "demo", Namespace := "default", UID := "uid-d",
                    ResourceVersion := "3", OwnerReferences := owners },
    Spec := { Replicas := 1, Selector := [("myapp", "demo")],
              TemplateLabels := [("myapp", "demo")], Image := "nginx:0.9",
              ContainerPorts := [80], Paused := false },
    Status := { ReadyReplicas := 1 } }

/-- A stored Service under `default/demo` with the given owner references and a cluster
IP assigned by the platform. -/
def storedService (owners : List OwnerReference) : Service :=
  { ObjectMeta := { Name := "demo", Namespace := "default", UID := "uid-s",
                    ResourceVersion := "4", OwnerReferences := owners },
    Spec := { ClusterIP := "10.0.0.7", Ports := [80], Selector := [("myapp", "demo")] } }

/-- A store holding `demoApp` and a Deployment with the given owner references. -/
def clusterWithDeployment (owners : List OwnerReference) : Cluster :=
  { demoCluster with
    Deployments := fun k => if k = demoKey then some (storedDeployment owners) else none }

/-- A store holding `demoApp`, the Deployment it owns, up to date, and a Service with
the given owner references. -/
def clusterWithService (owners : List OwnerReference) : Cluster :=
  { demoCluster with
    Deployments := fun k =>
      if k = demoKey then
        some (MutateDeployment demoApp (storedDeployment [demoOwner]))
      else none
    Services := fun k => if k = demoKey then some (storedService owners) else none }


/-! ## Owner references -/

theorem referSameObject_self (a : OwnerReference) : referSameObject a a = true := by
  simp [referSameObject]

theorem upsertOwnerRef_nil (ref : OwnerReference) : upsertOwnerRef ref [] = [ref] := rfl

theorem upsertOwnerRef_cons (ref r : OwnerReference) (rs : List OwnerReference) :
    upsertOwnerRef ref (r :: rs) =
      if referSameObject r ref then ref :: rs else r :: upsertOwnerRef ref rs := by
  unfold upsertOwnerRef
  by_cases h : referSameObject r ref = true
  · simp [indexOwnerRef, h]
  · simp only [indexOwnerRef, h, Bool.false_eq_true, if_false]
    cases hi : indexOwnerRef rs ref <;> simp

theorem mem_upsertOwnerRef (ref : OwnerReference) (l : List OwnerReference) :
    ref ∈ upsertOwnerRef ref l := by
  induction l with
  | nil => simp [upsertOwnerRef_nil]
  | cons r rs ih =>
    rw [upsertOwnerRef_cons]
    split <;> simp [ih]

theorem upsertOwnerRef_idem (ref : OwnerReference) (l : List OwnerReference) :
    upsertOwnerRef ref (upsertOwnerRef ref l) = upsertOwnerRef ref l := by
  induction l with
  | nil => simp [upsertOwnerRef_nil, upsertOwnerRef_cons, referSameObject_self]
  | cons r rs ih =>
    rw [upsertOwnerRef_cons]
    by_cases h : referSameObject r ref = true
    · simp [h, upsertOwnerRef_cons, referSameObject_self]
    · simp [h, upsertOwnerRef_cons, ih]

theorem GetControllerOf_upsertOwnerRef (ref : OwnerReference) (l : List OwnerReference)
    (hc : ref.Controller = true) (hv : validateControllerRef l ref = Except.ok ()) :
    GetControllerOf (upsertOwnerRef ref l) = some ref := by
  induction l with
  | nil => simp [upsertOwnerRef_nil, GetControllerOf, hc]
  | cons r rs ih =>
    rw [upsertOwnerRef_cons]
    by_cases h : referSameObject r ref = true
    · simp [h, GetControllerOf, hc]
    · by_cases hr : r.Controller = true
      · simp [validateControllerRef, GetControllerOf, hr, h] at hv
      · have hv2 : validateControllerRef rs ref = Except.ok () := by
          simpa [validateControllerRef, GetControllerOf, hr] using hv
        have := ih hv2
        simp only [GetControllerOf] at this
        simp [h, GetControllerOf, hr, this]

theorem validateControllerRef_upsertOwnerRef (ref : OwnerReference) (l : List OwnerReference)
    (hc : ref.Controller = true) (hv : validateControllerRef l ref = Except.ok ()) :
    validateControllerRef (upsertOwnerRef ref l) ref = Except.ok () := by
  simp [validateControllerRef, GetControllerOf_upsertOwnerRef ref l hc hv, referSameObject_self]

/-- What a successful `SetControllerReference` returns. -/
theorem SetControllerReference_ok {α : Type} [ChildObject α] (owner : ObjectMeta) (o o1 : α)
    (scheme : List GroupVersionKind)
    (h : SetControllerReference owner o scheme = Except.ok o1) :
    ∃ gvk, scheme = [gvk] ∧
      validateOwner owner.Namespace (KubeObject.getMeta o).Namespace = Except.ok () ∧
      validateControllerRef (KubeObject.getMeta o).OwnerReferences (NewControllerRef owner gvk)
        = Except.ok () ∧
      o1 = ChildObject.setOwnerReferences o
        (upsertOwnerRef (NewControllerRef owner gvk) (KubeObject.getMeta o).OwnerReferences) := by
  unfold SetControllerReference at h
  split at h
  · simp at h
  · rename_i u hvo
    split at h
    · simp at h
    · rename_i gvk hg
      dsimp only at h
      split at h
      · simp at h
      · rename_i u2 hvc
        refine ⟨gvk, ?_, ?_, ?_, ?_⟩
        · unfold GVKForObject at hg
          split at hg <;> simp_all
        · cases u; exact hvo
        · cases u2; exact hvc
        · simpa using h.symm

/-- The binder is idempotent: binding a bound object again returns it as it is. -/
theorem SetControllerReference_idem {α : Type} [ChildObject α] (owner : ObjectMeta) (o o1 : α)
    (scheme : List GroupVersionKind)
    (h : SetControllerReference owner o scheme = Except.ok o1) :
    SetControllerReference owner o1 scheme = Except.ok o1 := by
  obtain ⟨gvk, hs, hvo, hvc, ho1⟩ := SetControllerReference_ok owner o o1 scheme h
  subst hs
  have hm : KubeObject.getMeta o1 = { KubeObject.getMeta o with
      OwnerReferences := (upsertOwnerRef (NewControllerRef owner gvk)
        (KubeObject.getMeta o).OwnerReferences) } := by
    rw [ho1, ChildObject.getMeta_setOwnerReferences]
  unfold SetControllerReference
  simp only [hm, hvo, GVKForObject]
  rw [validateControllerRef_upsertOwnerRef _ _ rfl hvc, upsertOwnerRef_idem]
  simp only
  rw [ho1, ChildObject.setOwnerReferences_twice]

/-- After a successful binding the controller of the object is the reference to the owner. -/
theorem SetControllerReference_controller {α : Type} [ChildObject α] (owner : ObjectMeta)
    (o o1 : α) (scheme : List GroupVersionKind)
    (h : SetControllerReference owner o scheme = Except.ok o1) :
    ∃ gvk, scheme = [gvk] ∧
      GetControllerOf (KubeObject.getMeta o1).OwnerReferences = some (NewControllerRef owner gvk) := by
  obtain ⟨gvk, hs, _, hvc, ho1⟩ := SetControllerReference_ok owner o o1 scheme h
  refine ⟨gvk, hs, ?_⟩
  rw [ho1, ChildObject.getMeta_setOwnerReferences]
  exact GetControllerOf_upsertOwnerRef _ _ rfl hvc


/-! ## The store client, case by case -/

theorem Get_cases {α : Type} [KubeObject α] (key : NamespacedName) (w : World) :
    (∃ o : α, KubeObject.lookup w.cluster key = some o ∧ w.injected = none ∧
        Get key w = (Except.ok o, w.record Verb.get (KubeObject.kind α) key none w.cluster)) ∨
    (∃ e, (w.injected = some e ∨
          (e = ApiError.NotFound ∧ (KubeObject.lookup w.cluster key : Option α) = none)) ∧
        (Get key w : Except ApiError α × World) =
          (Except.error e, w.record Verb.get (KubeObject.kind α) key (some e) w.cluster)) := by
  unfold Get
  cases hi : w.injected with
  | some e => exact Or.inr ⟨e, Or.inl rfl, rfl⟩
  | none =>
    cases hl : (KubeObject.lookup w.cluster key : Option α) with
    | some o => exact Or.inl ⟨o, rfl, rfl, rfl⟩
    | none => exact Or.inr ⟨ApiError.NotFound, Or.inr ⟨rfl, rfl⟩, rfl⟩

theorem Create_cases {α : Type} [ChildObject α] (obj : α) (w : World) :
    ((KubeObject.lookup w.cluster (ObjectKeyFromObject obj) : Option α) = none ∧
        Create obj w = (Except.ok (), w.record Verb.create (KubeObject.kind α)
          (ObjectKeyFromObject obj) none (ChildObject.put w.cluster (ObjectKeyFromObject obj) obj))) ∨
    (∃ e, Create obj w = (Except.error e, w.record Verb.create (KubeObject.kind α)
          (ObjectKeyFromObject obj) (some e) w.cluster)) := by
  unfold Create
  cases hi : w.injected with
  | some e => exact Or.inr ⟨e, rfl⟩
  | none =>
    cases hl : (KubeObject.lookup w.cluster (ObjectKeyFromObject obj) : Option α) with
    | some o => exact Or.inr ⟨ApiError.AlreadyExists, by simp [hl]⟩
    | none => exact Or.inl ⟨rfl, by simp [hl]⟩

theorem Update_cases {α : Type} [ChildObject α] (obj : α) (w : World) :
    (Update obj w = (Except.ok (), w.record Verb.update (KubeObject.kind α)
          (ObjectKeyFromObject obj) none (ChildObject.put w.cluster (ObjectKeyFromObject obj) obj))) ∨
    (∃ e, Update obj w = (Except.error e, w.record Verb.update (KubeObject.kind α)
          (ObjectKeyFromObject obj) (some e) w.cluster)) := by
  unfold Update
  cases hi : w.injected with
  | some e => exact Or.inr ⟨e, rfl⟩
  | none =>
    cases hl : (KubeObject.lookup w.cluster (ObjectKeyFromObject obj) : Option α) with
    | some o => exact Or.inl (by simp [hl])
    | none => exact Or.inr ⟨ApiError.NotFound, by simp [hl]⟩

theorem mutate_key {α : Type} [KubeObject α] (f : α → Except ApiError α) (key : NamespacedName)
    (o d : α) (h : mutate f key o = Except.ok d) : f o = Except.ok d ∧ ObjectKeyFromObject d = key := by
  unfold mutate at h
  split at h
  · simp at h
  · rename_i o1 hf
    split at h
    · rename_i hk
      simp at h
      subst h
      exact ⟨hf, hk⟩
    · simp at h

/-! ## CreateOrUpdate, case by case -/

/-- The three shapes of a run of `CreateOrUpdate`: no write (an error before the write,
or nothing to change), a write that failed, a write that went through. -/
theorem CreateOrUpdate_cases {α : Type} [ChildObject α] [DecidableEq α] (obj : α)
    (f : α → Except ApiError α) (w : World) :
    (∃ res gerr, CreateOrUpdate obj f w =
          (res, w.record Verb.get (KubeObject.kind α) (ObjectKeyFromObject obj) gerr w.cluster) ∧
        ((res = Except.ok OperationResult.unchanged ∧ gerr = none ∧ w.injected = none ∧
            ∃ d, KubeObject.lookup w.cluster (ObjectKeyFromObject obj) = some d ∧
              mutate f (ObjectKeyFromObject obj) d = Except.ok d) ∨
         (∃ e, res = Except.error e ∧
            (gerr = some e ∨
              (∃ b, mutate f (ObjectKeyFromObject obj) b = Except.error e ∧
                (gerr = some ApiError.NotFound ∧ b = obj ∨
                 gerr = none ∧ KubeObject.lookup w.cluster (ObjectKeyFromObject obj) = some b)))))) ∨
    (∃ gerr v e, (v = Verb.create ∧ gerr = some ApiError.NotFound ∨
            v = Verb.update ∧ gerr = none) ∧ CreateOrUpdate obj f w =
          (Except.error e,
            (w.record Verb.get (KubeObject.kind α) (ObjectKeyFromObject obj) gerr w.cluster).record
              v (KubeObject.kind α) (ObjectKeyFromObject obj) (some e) w.cluster)) ∨
    (∃ gerr v res d, (v = Verb.create ∧ res = OperationResult.created ∧
              gerr = some ApiError.NotFound ∨
            v = Verb.update ∧ res = OperationResult.updated ∧ gerr = none) ∧
        mutate f (ObjectKeyFromObject obj)
          ((KubeObject.lookup w.cluster (ObjectKeyFromObject obj)).getD obj) = Except.ok d ∧
        CreateOrUpdate obj f w =
          (Except.ok res,
            (w.record Verb.get (KubeObject.kind α) (ObjectKeyFromObject obj) gerr w.cluster).record
              v (KubeObject.kind α) (ObjectKeyFromObject obj) none
              (ChildObject.put w.cluster (ObjectKeyFromObject obj) d))) := by
  unfold CreateOrUpdate
  rcases @Get_cases α _ (ObjectKeyFromObject obj) w with ⟨o, hl, hi, hg⟩ | ⟨e, he, hg⟩
  · -- the object exists
    simp only [hg]
    cases hm : mutate f (ObjectKeyFromObject obj) o with
    | error e1 =>
      exact Or.inl ⟨_, _, rfl, Or.inr ⟨e1, rfl, Or.inr ⟨o, hm, Or.inr ⟨rfl, hl⟩⟩⟩⟩
    | ok o1 =>
      simp only
      by_cases heq : o = o1
      · subst heq
        simp only [if_true]
        exact Or.inl ⟨_, _, rfl, Or.inl ⟨rfl, rfl, hi, o, hl, hm⟩⟩
      · simp only [heq, if_false]
        have hk := (mutate_key f _ o o1 hm).2
        rcases Update_cases o1
          (w.record Verb.get (KubeObject.kind α) (ObjectKeyFromObject obj) none w.cluster)
          with hu | ⟨e2, hu⟩
        · rw [hu, hk]
          refine Or.inr (Or.inr ⟨none, Verb.update, OperationResult.updated, o1, Or.inr ⟨rfl, rfl, rfl⟩, ?_, rfl⟩)
          simpa [hl] using hm
        · rw [hu, hk]
          exact Or.inr (Or.inl ⟨none, Verb.update, e2, Or.inr ⟨rfl, rfl⟩, rfl⟩)
  · -- the fetch failed
    simp only [hg]
    by_cases hnf : e = ApiError.NotFound
    · subst hnf
      simp only [ne_eq, not_true_eq_false, if_false]
      cases hm : mutate f (ObjectKeyFromObject obj) obj with
      | error e1 =>
        exact Or.inl ⟨_, _, rfl, Or.inr ⟨e1, rfl, Or.inr ⟨obj, hm, Or.inl ⟨rfl, rfl⟩⟩⟩⟩
      | ok o1 =>
        simp only
        have hk := (mutate_key f _ obj o1 hm).2
        rcases Create_cases o1
          (w.record Verb.get (KubeObject.kind α) (ObjectKeyFromObject obj)
            (some ApiError.NotFound) w.cluster)
          with ⟨hn, hc⟩ | ⟨e2, hc⟩
        · rw [hc, hk]
          refine Or.inr (Or.inr ⟨_, Verb.create, OperationResult.created, o1, Or.inl ⟨rfl, rfl, rfl⟩, ?_, rfl⟩)
          rw [hk] at hn
          have hn2 : (KubeObject.lookup w.cluster (ObjectKeyFromObject obj) : Option α) = none := hn
          simpa [hn2] using hm
        · rw [hc, hk]
          exact Or.inr (Or.inl ⟨_, Verb.create, e2, Or.inl ⟨rfl, rfl⟩, rfl⟩)
    · simp only [ne_eq, hnf, not_false_eq_true, if_true]
      exact Or.inl ⟨_, _, rfl, Or.inr ⟨e, rfl, Or.inl rfl⟩⟩

/-- A run of `CreateOrUpdate` on an object that is stored and that the callback leaves
as it is: one fetch, no write, outcome "unchanged". -/
theorem CreateOrUpdate_unchanged {α : Type} [ChildObject α] [DecidableEq α] (obj d : α)
    (f : α → Except ApiError α) (w : World) (hi : w.injected = none)
    (hl : KubeObject.lookup w.cluster (ObjectKeyFromObject obj) = some d)
    (hm : mutate f (ObjectKeyFromObject obj) d = Except.ok d) :
    CreateOrUpdate obj f w = (Except.ok OperationResult.unchanged,
      w.record Verb.get (KubeObject.kind α) (ObjectKeyFromObject obj) none w.cluster) := by
  unfold CreateOrUpdate Get
  simp [hi, hl, hm]


/-! ## One step of create-or-update: summary lemmas -/

theorem World.record_calls (w : World) (v : Verb) (K : Kind) (key : NamespacedName)
    (e : Option ApiError) (c : Cluster) :
    (w.record v K key e c).calls = w.calls ++ [{ verb := v, kind := K, key := key, err := e }] := rfl

theorem World.record_cluster (w : World) (v : Verb) (K : Kind) (key : NamespacedName)
    (e : Option ApiError) (c : Cluster) : (w.record v K key e c).cluster = c := rfl

theorem World.record_faults (w : World) (v : Verb) (K : Kind) (key : NamespacedName)
    (e : Option ApiError) (c : Cluster) : (w.record v K key e c).faults = w.faults.tail := rfl

theorem World.record_injected_of_nil (w : World) (v : Verb) (K : Kind) (key : NamespacedName)
    (e : Option ApiError) (c : Cluster) (h : w.faults = []) :
    (w.record v K key e c).injected = none ∧ (w.record v K key e c).faults = [] := by
  simp [World.record, World.injected, h]

/-- A failed step leaves the stored objects as they were. -/
theorem CreateOrUpdate_error_cluster {α : Type} [ChildObject α] [DecidableEq α] (obj : α)
    (f : α → Except ApiError α) (w : World) (e : ApiError)
    (h : (CreateOrUpdate obj f w).1 = Except.error e) :
    (CreateOrUpdate obj f w).2.cluster = w.cluster := by
  rcases CreateOrUpdate_cases obj f w with ⟨res, ge, heq, _⟩ | ⟨ge, v, e2, _, heq⟩ |
    ⟨ge, v, res, d, _, _, heq⟩
  · rw [heq]; rfl
  · rw [heq]; rfl
  · rw [heq] at h; simp at h

/-- A successful step leaves, under the key, the mutated baseline; it wrote at most
that one cell. -/
theorem CreateOrUpdate_ok_cluster {α : Type} [ChildObject α] [DecidableEq α] (obj : α)
    (f : α → Except ApiError α) (w : World) (res : OperationResult)
    (h : (CreateOrUpdate obj f w).1 = Except.ok res) :
    ∃ d, mutate f (ObjectKeyFromObject obj)
          ((KubeObject.lookup w.cluster (ObjectKeyFromObject obj)).getD obj) = Except.ok d ∧
      KubeObject.lookup (CreateOrUpdate obj f w).2.cluster (ObjectKeyFromObject obj) = some d ∧
      ((CreateOrUpdate obj f w).2.cluster = w.cluster ∨
        (CreateOrUpdate obj f w).2.cluster =
          ChildObject.put w.cluster (ObjectKeyFromObject obj) d) := by
  rcases CreateOrUpdate_cases obj f w with ⟨res1, ge, heq, hres⟩ | ⟨ge, v, e2, _, heq⟩ |
    ⟨ge, v, res1, d, _, hm, heq⟩
  · rcases hres with ⟨_, _, _, d, hl, hm⟩ | ⟨e, he, _⟩
    · refine ⟨d, ?_, ?_, Or.inl ?_⟩
      · simpa [hl] using hm
      · rw [heq]; exact hl
      · rw [heq]; rfl
    · rw [heq, he] at h; simp at h
  · rw [heq] at h; simp at h
  · refine ⟨d, hm, ?_, Or.inr ?_⟩
    · rw [heq]; exact ChildObject.lookup_put_same _ _ _
    · rw [heq]; rfl

/-- Whatever happens, a step changes at most the cell under the key of its object. -/
theorem CreateOrUpdate_frame {α : Type} [ChildObject α] [DecidableEq α] (obj : α)
    (f : α → Except ApiError α) (w : World) :
    (CreateOrUpdate obj f w).2.cluster = w.cluster ∨
      ∃ d : α, (CreateOrUpdate obj f w).2.cluster =
        ChildObject.put w.cluster (ObjectKeyFromObject obj) d := by
  rcases CreateOrUpdate_cases obj f w with ⟨res, ge, heq, _⟩ | ⟨ge, v, e2, _, heq⟩ |
    ⟨ge, v, res, d, _, _, heq⟩
  · rw [heq]; exact Or.inl rfl
  · rw [heq]; exact Or.inl rfl
  · rw [heq]; exact Or.inr ⟨d, rfl⟩

/-- The calls of one step: a fetch, then at most one create or update, all under the
kind and key of the object.  A failed write is returned as the error of the step, and
so is a failed fetch other than not-found, after which nothing is written. -/
theorem CreateOrUpdate_calls {α : Type} [ChildObject α] [DecidableEq α] (obj : α)
    (f : α → Except ApiError α) (w : World) :
    ∃ ge ws, (CreateOrUpdate obj f w).2.calls = w.calls ++
        { verb := Verb.get, kind := KubeObject.kind α, key := ObjectKeyFromObject obj, err := ge }
          :: ws ∧
      (∀ e, ge = some e → e ≠ ApiError.NotFound →
        (CreateOrUpdate obj f w).1 = Except.error e ∧ ws = []) ∧
      ((CreateOrUpdate obj f w).1 = Except.ok OperationResult.unchanged → ge = none ∧ ws = []) ∧
      (ws = [] ∨ ∃ v we, (v = Verb.create ∨ v = Verb.update) ∧
        ws = [{ verb := v, kind := KubeObject.kind α, key := ObjectKeyFromObject obj, err := we }] ∧
        (v = Verb.update → ge = none) ∧
        (∀ e, we = some e → (CreateOrUpdate obj f w).1 = Except.error e) ∧
        (we = none → ∃ res, (CreateOrUpdate obj f w).1 = Except.ok res)) := by
  rcases CreateOrUpdate_cases obj f w with ⟨res, ge, heq, hres⟩ | ⟨ge, v, e2, hv, heq⟩ |
    ⟨ge, v, res, d, hv, _, heq⟩
  · refine ⟨ge, [], by rw [heq]; rfl, ?_, ?_, Or.inl rfl⟩
    · intro e hge hne
      refine ⟨?_, rfl⟩
      rw [heq]
      rcases hres with ⟨_, hn, _⟩ | ⟨e1, he1, hor⟩
      · rw [hn] at hge; simp at hge
      · rcases hor with h1 | ⟨b, _, ⟨h2, _⟩ | ⟨h2, _⟩⟩
        · rw [h1] at hge; simp at hge; subst hge; exact he1
        · rw [h2] at hge; simp at hge; exact absurd hge.symm hne
        · rw [h2] at hge; simp at hge
    · intro hun
      rw [heq] at hun
      rcases hres with ⟨_, hn, _⟩ | ⟨e1, he1, _⟩
      · exact ⟨hn, rfl⟩
      · simp only at hun; rw [he1] at hun; simp at hun
  · refine ⟨ge, [ApiCall.mk v (KubeObject.kind α) (ObjectKeyFromObject obj) (some e2)], ?_, ?_, ?_, Or.inr ⟨v, some e2, ?_, rfl, ?_, ?_, ?_⟩⟩
    · rw [heq]; simp [World.record]
    · intro e hge hne
      rcases hv with ⟨_, h2⟩ | ⟨_, h2⟩
      · rw [h2] at hge; simp at hge; exact absurd hge.symm hne
      · rw [h2] at hge; simp at hge
    · intro hun; rw [heq] at hun; simp at hun
    · rcases hv with ⟨h1, _⟩ | ⟨h1, _⟩
      · exact Or.inl h1
      · exact Or.inr h1
    · intro hu
      rcases hv with ⟨h1, _⟩ | ⟨_, h2⟩
      · rw [h1] at hu; simp at hu
      · exact h2
    · intro e he; simp at he; subst he; rw [heq]
    · intro hn; simp at hn
  · refine ⟨ge, [ApiCall.mk v (KubeObject.kind α) (ObjectKeyFromObject obj) none], ?_, ?_, ?_, Or.inr ⟨v, none, ?_, rfl, ?_, ?_, ?_⟩⟩
    · rw [heq]; simp [World.record]
    · intro e hge hne
      rcases hv with ⟨_, _, h2⟩ | ⟨_, _, h2⟩
      · rw [h2] at hge; simp at hge; exact absurd hge.symm hne
      · rw [h2] at hge; simp at hge
    · intro hun; rw [heq] at hun
      rcases hv with ⟨_, h2, _⟩ | ⟨_, h2, _⟩ <;> (rw [h2] at hun; simp at hun)
    · rcases hv with ⟨h1, _⟩ | ⟨h1, _⟩
      · exact Or.inl h1
      · exact Or.inr h1
    · intro hu
      rcases hv with ⟨h1, _⟩ | ⟨_, _, h2⟩
      · rw [h1] at hu; simp at hu
      · exact h2
    · intro e he; simp at he
    · intro _; exact ⟨res, by rw [heq]⟩


/-! ## Reconcile, path by path -/

theorem parentFetch_snd (req : NamespacedName) (w : World) :
    ∃ ge, (parentFetch req w).2 = w.record Verb.get Kind.MyApp req ge w.cluster ∧
      (∀ e, (parentFetch req w).1 = Except.error e → ge = some e) ∧
      (∀ a, (parentFetch req w).1 = Except.ok a → ge = none ∧ w.cluster.MyApps req = some a) := by
  rcases @Get_cases MyApp _ req w with ⟨o, hl, _, hg⟩ | ⟨e, _, hg⟩
  · refine ⟨none, by rw [parentFetch, hg]; rfl, ?_, ?_⟩
    · intro e he; rw [parentFetch, hg] at he; simp at he
    · intro a ha; rw [parentFetch, hg] at ha; simp at ha; subst ha; exact ⟨rfl, hl⟩
  · refine ⟨some e, by rw [parentFetch, hg]; rfl, ?_, ?_⟩
    · intro e1 he; rw [parentFetch, hg] at he; simp at he; rw [he]
    · intro a ha; rw [parentFetch, hg] at ha; simp at ha

theorem Reconcile_get_error (μ : Mutators) (r : MyAppReconciler) (req : NamespacedName)
    (w : World) (e : ApiError) (h : (parentFetch req w).1 = Except.error e) :
    Reconcile μ r req w =
      { result := {}, err := IgnoreNotFound e, world := (parentFetch req w).2, infos := [] } := by
  unfold Reconcile
  rcases hg : (Get req w : Except ApiError MyApp × World) with ⟨res, w1⟩
  simp only [parentFetch, hg] at h ⊢
  subst h
  rfl

theorem Reconcile_deployment_error (μ : Mutators) (r : MyAppReconciler) (req : NamespacedName)
    (w : World) (myapp : MyApp) (e : ApiError)
    (hget : (parentFetch req w).1 = Except.ok myapp)
    (hd : (deploymentStep μ r myapp (parentFetch req w).2).1 = Except.error e) :
    Reconcile μ r req w =
      { result := {}, err := some e,
        world := (deploymentStep μ r myapp (parentFetch req w).2).2, infos := [] } := by
  unfold Reconcile
  rcases hg : (Get req w : Except ApiError MyApp × World) with ⟨res, w1⟩
  simp only [parentFetch, hg] at hget hd ⊢
  subst hget
  rcases hs : CreateOrUpdate (newDeployment myapp) (deploymentMutateFn μ r myapp) w1 with ⟨res1, w2⟩
  simp only [deploymentStep, hs] at hd ⊢
  subst hd
  rfl

theorem Reconcile_service_error (μ : Mutators) (r : MyAppReconciler) (req : NamespacedName)
    (w : World) (myapp : MyApp) (or1 : OperationResult) (e : ApiError)
    (hget : (parentFetch req w).1 = Except.ok myapp)
    (hd : (deploymentStep μ r myapp (parentFetch req w).2).1 = Except.ok or1)
    (hs : (serviceStep μ r myapp (deploymentStep μ r myapp (parentFetch req w).2).2).1
      = Except.error e) :
    Reconcile μ r req w =
      { result := {}, err := some e,
        world := (serviceStep μ r myapp (deploymentStep μ r myapp (parentFetch req w).2).2).2,
        infos := [(Kind.Deployment, or1)] } := by
  unfold Reconcile
  rcases hg : (Get req w : Except ApiError MyApp × World) with ⟨res, w1⟩
  simp only [parentFetch, hg] at hget hd hs ⊢
  subst hget
  rcases hs1 : CreateOrUpdate (newDeployment myapp) (deploymentMutateFn μ r myapp) w1 with ⟨res1, w2⟩
  simp only [deploymentStep, hs1] at hd hs ⊢
  subst hd
  rcases hs2 : CreateOrUpdate (newService myapp) (serviceMutateFn μ r myapp) w2 with ⟨res2, w3⟩
  simp only [serviceStep, hs2] at hs ⊢
  subst hs
  rfl

theorem Reconcile_both_ok (μ : Mutators) (r : MyAppReconciler) (req : NamespacedName)
    (w : World) (myapp : MyApp) (or1 or2 : OperationResult)
    (hget : (parentFetch req w).1 = Except.ok myapp)
    (hd : (deploymentStep μ r myapp (parentFetch req w).2).1 = Except.ok or1)
    (hs : (serviceStep μ r myapp (deploymentStep μ r myapp (parentFetch req w).2).2).1
      = Except.ok or2) :
    Reconcile μ r req w =
      { result := {}, err := none,
        world := (serviceStep μ r myapp (deploymentStep μ r myapp (parentFetch req w).2).2).2,
        infos := [(Kind.Deployment, or1), (Kind.Service, or2)] } := by
  unfold Reconcile
  rcases hg : (Get req w : Except ApiError MyApp × World) with ⟨res, w1⟩
  simp only [parentFetch, hg] at hget hd hs ⊢
  subst hget
  rcases hs1 : CreateOrUpdate (newDeployment myapp) (deploymentMutateFn μ r myapp) w1 with ⟨res1, w2⟩
  simp only [deploymentStep, hs1] at hd hs ⊢
  subst hd
  rcases hs2 : CreateOrUpdate (newService myapp) (serviceMutateFn μ r myapp) w2 with ⟨res2, w3⟩
  simp only [serviceStep, hs2] at hs ⊢
  subst hs
  rfl

/-- The four paths through `Reconcile`. -/
theorem Reconcile_paths (μ : Mutators) (r : MyAppReconciler) (req : NamespacedName) (w : World) :
    (∃ e, (parentFetch req w).1 = Except.error e) ∨
    (∃ myapp, (parentFetch req w).1 = Except.ok myapp ∧
      ((∃ e, (deploymentStep μ r myapp (parentFetch req w).2).1 = Except.error e) ∨
       (∃ or1, (deploymentStep μ r myapp (parentFetch req w).2).1 = Except.ok or1 ∧
          ((∃ e, (serviceStep μ r myapp (deploymentStep μ r myapp (parentFetch req w).2).2).1
              = Except.error e) ∨
           (∃ or2, (serviceStep μ r myapp (deploymentStep μ r myapp (parentFetch req w).2).2).1
              = Except.ok or2))))) := by
  cases h1 : (parentFetch req w).1 with
  | error e => exact Or.inl ⟨e, rfl⟩
  | ok myapp =>
    refine Or.inr ⟨myapp, rfl, ?_⟩
    cases h2 : (deploymentStep μ r myapp (parentFetch req w).2).1 with
    | error e => exact Or.inl ⟨e, rfl⟩
    | ok or1 =>
      refine Or.inr ⟨or1, rfl, ?_⟩
      cases h3 : (serviceStep μ r myapp (deploymentStep μ r myapp (parentFetch req w).2).2).1 with
      | error e => exact Or.inl ⟨e, rfl⟩
      | ok or2 => exact Or.inr ⟨or2, rfl⟩


/-! ## Frames of the two steps on the tables of the store -/

theorem deploymentStep_frame (μ : Mutators) (r : MyAppReconciler) (myapp : MyApp) (w : World) :
    (deploymentStep μ r myapp w).2.cluster.MyApps = w.cluster.MyApps ∧
    (deploymentStep μ r myapp w).2.cluster.Services = w.cluster.Services ∧
    ∀ k, k ≠ ObjectKeyFromObject myapp →
      (deploymentStep μ r myapp w).2.cluster.Deployments k = w.cluster.Deployments k := by
  rcases CreateOrUpdate_frame (newDeployment myapp) (deploymentMutateFn μ r myapp) w with h | ⟨d, h⟩
  · simp [deploymentStep, h]
  · simp only [deploymentStep, h]
    refine ⟨rfl, rfl, fun k hk => ?_⟩
    exact @ChildObject.lookup_put_other Deployment _ _ _ _ _ hk

theorem serviceStep_frame (μ : Mutators) (r : MyAppReconciler) (myapp : MyApp) (w : World) :
    (serviceStep μ r myapp w).2.cluster.MyApps = w.cluster.MyApps ∧
    (serviceStep μ r myapp w).2.cluster.Deployments = w.cluster.Deployments ∧
    ∀ k, k ≠ ObjectKeyFromObject myapp →
      (serviceStep μ r myapp w).2.cluster.Services k = w.cluster.Services k := by
  rcases CreateOrUpdate_frame (newService myapp) (serviceMutateFn μ r myapp) w with h | ⟨d, h⟩
  · simp [serviceStep, h]
  · simp only [serviceStep, h]
    refine ⟨rfl, rfl, fun k hk => ?_⟩
    exact @ChildObject.lookup_put_other Service _ _ _ _ _ hk

theorem parentFetch_cluster (req : NamespacedName) (w : World) :
    (parentFetch req w).2.cluster = w.cluster := by
  obtain ⟨ge, h, _⟩ := parentFetch_snd req w
  rw [h]; rfl

/-- What a successful reconciliation of an existing parent leaves behind. -/
theorem Reconcile_ok_facts (μ : Mutators) (r : MyAppReconciler) (req : NamespacedName)
    (w : World) (myapp : MyApp)
    (hget : (parentFetch req w).1 = Except.ok myapp)
    (hok : (Reconcile μ r req w).err = none) :
    ∃ d s,
      (Reconcile μ r req w).world.cluster.MyApps = w.cluster.MyApps ∧
      (Reconcile μ r req w).world.cluster.Deployments (ObjectKeyFromObject myapp) = some d ∧
      (Reconcile μ r req w).world.cluster.Services (ObjectKeyFromObject myapp) = some s ∧
      mutate (deploymentMutateFn μ r myapp) (ObjectKeyFromObject myapp)
        ((w.cluster.Deployments (ObjectKeyFromObject myapp)).getD (newDeployment myapp))
          = Except.ok d ∧
      mutate (serviceMutateFn μ r myapp) (ObjectKeyFromObject myapp)
        ((w.cluster.Services (ObjectKeyFromObject myapp)).getD (newService myapp))
          = Except.ok s := by
  rcases Reconcile_paths μ r req w with ⟨e, he⟩ | ⟨a, ha, hrest⟩
  · rw [hget] at he; simp at he
  · rw [hget] at ha
    simp only [Except.ok.injEq] at ha
    subst ha
    rcases hrest with ⟨e, hd⟩ | ⟨or1, hd, ⟨e, hs⟩ | ⟨or2, hs⟩⟩
    · rw [Reconcile_deployment_error μ r req w myapp e hget hd] at hok; simp at hok
    · rw [Reconcile_service_error μ r req w myapp or1 e hget hd hs] at hok; simp at hok
    · rw [Reconcile_both_ok μ r req w myapp or1 or2 hget hd hs]
      obtain ⟨d, hmd, hld, _⟩ := CreateOrUpdate_ok_cluster (newDeployment myapp)
        (deploymentMutateFn μ r myapp) (parentFetch req w).2 or1 hd
      obtain ⟨s, hms, hls, _⟩ := CreateOrUpdate_ok_cluster (newService myapp)
        (serviceMutateFn μ r myapp) (deploymentStep μ r myapp (parentFetch req w).2).2 or2 hs
      obtain ⟨fd1, fd2, _⟩ := deploymentStep_frame μ r myapp (parentFetch req w).2
      obtain ⟨fs1, fs2, _⟩ := serviceStep_frame μ r myapp
        (deploymentStep μ r myapp (parentFetch req w).2).2
      have hc := parentFetch_cluster req w
      refine ⟨d, s, ?_, ?_, ?_, ?_, ?_⟩
      · show (serviceStep μ r myapp (deploymentStep μ r myapp (parentFetch req w).2).2).2.cluster.MyApps = _
        rw [fs1, fd1, hc]
      · show (serviceStep μ r myapp (deploymentStep μ r myapp (parentFetch req w).2).2).2.cluster.Deployments _ = _
        rw [fs2]
        exact hld
      · exact hls
      · rw [hc] at hmd
        exact hmd
      · have hms2 : mutate (serviceMutateFn μ r myapp) (ObjectKeyFromObject myapp)
            (((deploymentStep μ r myapp (parentFetch req w).2).2.cluster.Services
              (ObjectKeyFromObject myapp)).getD (newService myapp)) = Except.ok s := hms
        rw [fd2, hc] at hms2
        exact hms2


theorem Get_of_lookup {α : Type} [KubeObject α] (key : NamespacedName) (w : World) (o : α)
    (hi : w.injected = none) (hl : KubeObject.lookup w.cluster key = some o) :
    Get key w = (Except.ok o, w.record Verb.get (KubeObject.kind α) key none w.cluster) := by
  unfold Get
  simp [hi, hl]

/-- A mutate callback that returned `d` returns `d` again when run on `d`, provided the
mutator is stable on its own output. -/
theorem mutate_fixed {α : Type} [ChildObject α] (owner : ObjectMeta) (m : α → α)
    (scheme : List GroupVersionKind) (key : NamespacedName) (b d : α)
    (hstable : ∀ x l, m (ChildObject.setOwnerReferences (m x) l)
      = ChildObject.setOwnerReferences (m x) l)
    (h : mutate (fun o => SetControllerReference owner (m o) scheme) key b = Except.ok d) :
    mutate (fun o => SetControllerReference owner (m o) scheme) key d = Except.ok d := by
  obtain ⟨hf, hk⟩ := mutate_key _ key b d h
  have hf1 : SetControllerReference owner (m b) scheme = Except.ok d := hf
  obtain ⟨gvk, _, _, _, hd⟩ := SetControllerReference_ok owner (m b) d scheme hf1
  have hmd : m d = d := by
    rw [hd]; exact hstable _ _
  have hf2 : SetControllerReference owner (m d) scheme = Except.ok d := by
    rw [hmd]; exact SetControllerReference_idem owner (m b) d scheme hf1
  unfold mutate
  simp only [hf2, hk, if_true]


/-! ## The calls of a reconciliation -/

theorem CreateOrUpdate_trace {α : Type} [ChildObject α] [DecidableEq α] (obj : α)
    (f : α → Except ApiError α) (w : World) :
    ∃ cs, (CreateOrUpdate obj f w).2.calls = w.calls ++ cs ∧
      StepTrace (KubeObject.kind α) (ObjectKeyFromObject obj) (CreateOrUpdate obj f w).1 cs := by
  obtain ⟨ge, ws, h1, h2, h3, h4⟩ := CreateOrUpdate_calls obj f w
  exact ⟨_, h1, ge, ws, rfl, h2, h3, h4⟩

/-- The calls `Reconcile` issues and what it returns, along its four paths. -/
theorem Reconcile_trace (μ : Mutators) (r : MyAppReconciler) (req : NamespacedName)
    (w : World) :
    ∃ cs, (Reconcile μ r req w).world.calls = w.calls ++ cs ∧
      (Reconcile μ r req w).result = { Requeue := false, RequeueAfter := 0 } ∧
      ((∃ e, (parentFetch req w).1 = Except.error e ∧
          cs = [ApiCall.mk Verb.get Kind.MyApp req (some e)] ∧
          (Reconcile μ r req w).err = IgnoreNotFound e ∧
          (Reconcile μ r req w).world.cluster = w.cluster) ∨
       (∃ myapp csd css dres, (parentFetch req w).1 = Except.ok myapp ∧
          w.cluster.MyApps req = some myapp ∧
          cs = ApiCall.mk Verb.get Kind.MyApp req none :: (csd ++ css) ∧
          StepTrace Kind.Deployment (ObjectKeyFromObject myapp) dres csd ∧
          ((∃ e, dres = Except.error e ∧ css = [] ∧ (Reconcile μ r req w).err = some e ∧
              (Reconcile μ r req w).world.cluster = w.cluster) ∨
           (∃ or1 sres, dres = Except.ok or1 ∧
              StepTrace Kind.Service (ObjectKeyFromObject myapp) sres css ∧
              ((∃ e, sres = Except.error e ∧ (Reconcile μ r req w).err = some e) ∨
               (∃ or2, sres = Except.ok or2 ∧ (Reconcile μ r req w).err = none)))))) := by
  obtain ⟨gp, hw1, hpe, hpo⟩ := parentFetch_snd req w
  rcases Reconcile_paths μ r req w with ⟨e, he⟩ | ⟨myapp, hget, hrest⟩
  · have hgp := hpe e he
    subst hgp
    rw [Reconcile_get_error μ r req w e he]
    refine ⟨_, ?_, rfl, Or.inl ⟨e, he, rfl, rfl, ?_⟩⟩
    · show (parentFetch req w).2.calls = _
      rw [hw1]; rfl
    · show (parentFetch req w).2.cluster = _
      rw [hw1]; rfl
  · have hgp := (hpo myapp hget).1
    have hpar := (hpo myapp hget).2
    subst hgp
    have hc1 : (parentFetch req w).2.calls
        = w.calls ++ [ApiCall.mk Verb.get Kind.MyApp req none] := by rw [hw1]; rfl
    obtain ⟨csd, hcd, htd⟩ := CreateOrUpdate_trace (newDeployment myapp)
      (deploymentMutateFn μ r myapp) (parentFetch req w).2
    rcases hrest with ⟨e, hd⟩ | ⟨or1, hd, hsrest⟩
    · rw [Reconcile_deployment_error μ r req w myapp e hget hd]
      refine ⟨ApiCall.mk Verb.get Kind.MyApp req none :: (csd ++ []), ?_, rfl,
        Or.inr ⟨myapp, csd, [], _, hget, hpar, rfl, htd, Or.inl ⟨e, hd, rfl, rfl, ?_⟩⟩⟩
      · show (deploymentStep μ r myapp (parentFetch req w).2).2.calls = _
        rw [deploymentStep, hcd, hc1]; simp
      · show (deploymentStep μ r myapp (parentFetch req w).2).2.cluster = _
        rw [deploymentStep, CreateOrUpdate_error_cluster _ _ _ e hd, hw1]; rfl
    · obtain ⟨css, hcs, hts⟩ := CreateOrUpdate_trace (newService myapp)
        (serviceMutateFn μ r myapp) (deploymentStep μ r myapp (parentFetch req w).2).2
      have hcalls : (serviceStep μ r myapp (deploymentStep μ r myapp (parentFetch req w).2).2).2.calls
          = w.calls ++ ApiCall.mk Verb.get Kind.MyApp req none :: (csd ++ css) := by
        rw [serviceStep, hcs, deploymentStep, hcd, hc1]; simp
      rcases hsrest with ⟨e, hs⟩ | ⟨or2, hs⟩
      · rw [Reconcile_service_error μ r req w myapp or1 e hget hd hs]
        exact ⟨_, hcalls, rfl, Or.inr ⟨myapp, csd, css, _, hget, hpar, rfl, htd,
          Or.inr ⟨or1, _, hd, hts, Or.inl ⟨e, hs, rfl⟩⟩⟩⟩
      · rw [Reconcile_both_ok μ r req w myapp or1 or2 hget hd hs]
        exact ⟨_, hcalls, rfl, Or.inr ⟨myapp, csd, css, _, hget, hpar, rfl, htd,
          Or.inr ⟨or1, _, hd, hts, Or.inr ⟨or2, hs, rfl⟩⟩⟩⟩

/-- The calls of a step: the kinds, keys and verbs, and at most one write. -/
theorem StepTrace.shape {K : Kind} {key : NamespacedName}
    {res : Except ApiError OperationResult} {cs : List ApiCall} (h : StepTrace K key res cs) :
    (∀ c ∈ cs, c.kind = K ∧ c.key = key ∧
      (c.verb = Verb.get ∨ c.verb = Verb.create ∨ c.verb = Verb.update)) ∧
    (∀ J, (writesOf J cs).length ≤ 1) := by
  obtain ⟨ge, ws, hcs, _, _, hws⟩ := h
  subst hcs
  rcases hws with hws | ⟨v, we, hv, hws, _⟩
  · subst hws
    refine ⟨?_, ?_⟩
    · intro c hc
      simp at hc
      subst hc
      simp
    · intro J
      simp [writesOf, Verb.isWrite]
  · subst hws
    refine ⟨?_, ?_⟩
    · intro c hc
      simp at hc
      rcases hc with hc | hc
      · subst hc; simp
      · subst hc
        rcases hv with hv | hv <;> simp [hv]
    · intro J
      simp only [writesOf, List.filter_cons, Verb.isWrite, Bool.false_and, Bool.false_eq_true,
        if_false]
      split <;> simp


/-! ## More on the calls and on the store -/

theorem writesOf_append (J : Kind) (a b : List ApiCall) :
    writesOf J (a ++ b) = writesOf J a ++ writesOf J b := by
  simp [writesOf]

theorem writesOf_of_kind (J K : Kind) (cs : List ApiCall) (h : ∀ c ∈ cs, c.kind = K)
    (hne : K ≠ J) : writesOf J cs = [] := by
  simp only [writesOf, List.filter_eq_nil_iff]
  intro c hc
  simp [h c hc, hne]

theorem writesOf_get_cons (J K : Kind) (key : NamespacedName) (e : Option ApiError)
    (cs : List ApiCall) : writesOf J (ApiCall.mk Verb.get K key e :: cs) = writesOf J cs := by
  simp [writesOf, Verb.isWrite]

/-- Where the world returned by `Reconcile` comes from. -/
theorem Reconcile_world (μ : Mutators) (r : MyAppReconciler) (req : NamespacedName)
    (w : World) :
    (Reconcile μ r req w).world = (parentFetch req w).2 ∨
    ∃ myapp, (parentFetch req w).1 = Except.ok myapp ∧
      ((Reconcile μ r req w).world = (deploymentStep μ r myapp (parentFetch req w).2).2 ∨
       (Reconcile μ r req w).world =
        (serviceStep μ r myapp (deploymentStep μ r myapp (parentFetch req w).2).2).2) := by
  rcases Reconcile_paths μ r req w with ⟨e, he⟩ | ⟨myapp, hget, hrest⟩
  · rw [Reconcile_get_error μ r req w e he]; exact Or.inl rfl
  · refine Or.inr ⟨myapp, hget, ?_⟩
    rcases hrest with ⟨e, hd⟩ | ⟨or1, hd, ⟨e, hs⟩ | ⟨or2, hs⟩⟩
    · rw [Reconcile_deployment_error μ r req w myapp e hget hd]; exact Or.inl rfl
    · rw [Reconcile_service_error μ r req w myapp or1 e hget hd hs]; exact Or.inr rfl
    · rw [Reconcile_both_ok μ r req w myapp or1 or2 hget hd hs]; exact Or.inr rfl

/-- The frame of `Reconcile`: the parents are never written, and a child under a key
other than that of the fetched parent is what it was. -/
theorem Reconcile_frame (μ : Mutators) (r : MyAppReconciler) (req : NamespacedName)
    (w : World) :
    (Reconcile μ r req w).world.cluster.MyApps = w.cluster.MyApps ∧
    ∀ k, (∀ myapp, (parentFetch req w).1 = Except.ok myapp → k ≠ ObjectKeyFromObject myapp) →
      (Reconcile μ r req w).world.cluster.Deployments k = w.cluster.Deployments k ∧
      (Reconcile μ r req w).world.cluster.Services k = w.cluster.Services k := by
  have hc := parentFetch_cluster req w
  rcases Reconcile_world μ r req w with h | ⟨myapp, hget, h | h⟩
  · rw [h, hc]; exact ⟨rfl, fun _ _ => ⟨rfl, rfl⟩⟩
  · obtain ⟨f1, f2, f3⟩ := deploymentStep_frame μ r myapp (parentFetch req w).2
    rw [h, f1, f2, hc]
    refine ⟨rfl, fun k hk => ⟨?_, rfl⟩⟩
    rw [f3 k (hk myapp hget), hc]
  · obtain ⟨f1, f2, f3⟩ := deploymentStep_frame μ r myapp (parentFetch req w).2
    obtain ⟨g1, g2, g3⟩ := serviceStep_frame μ r myapp
      (deploymentStep μ r myapp (parentFetch req w).2).2
    rw [h, g1, g2, f1, hc]
    refine ⟨rfl, fun k hk => ⟨?_, ?_⟩⟩
    · rw [f3 k (hk myapp hget), hc]
    · rw [g3 k (hk myapp hget), f2, hc]

theorem validateOwner_same (ns : String) : validateOwner ns ns = Except.ok () := by
  unfold validateOwner
  by_cases h : ns = "" <;> simp [h]

/-- The binder refuses an object whose controller is another object. -/
theorem SetControllerReference_foreign {α : Type} [ChildObject α] (owner : ObjectMeta) (o : α)
    (scheme : List GroupVersionKind) (ref : OwnerReference)
    (hc : GetControllerOf (KubeObject.getMeta o).OwnerReferences = some ref)
    (hf : ∀ gvk ∈ scheme, referSameObject ref (NewControllerRef owner gvk) = false) :
    ∃ e, SetControllerReference owner o scheme = Except.error e ∧
      (validateOwner owner.Namespace (KubeObject.getMeta o).Namespace = Except.ok () →
        ∀ gvk, scheme = [gvk] → e = ApiError.AlreadyOwned ref) := by
  unfold SetControllerReference
  cases hvo : validateOwner owner.Namespace (KubeObject.getMeta o).Namespace with
  | error e => exact ⟨e, rfl, fun h => by simp at h⟩
  | ok u =>
    cases hg : GVKForObject scheme with
    | error e =>
      refine ⟨e, rfl, fun _ gvk hs => ?_⟩
      rw [hs] at hg
      simp [GVKForObject] at hg
    | ok gvk =>
      have hs : scheme = [gvk] := by
        unfold GVKForObject at hg
        split at hg <;> simp_all
      have hfalse := hf gvk (by rw [hs]; simp)
      refine ⟨ApiError.AlreadyOwned ref, ?_, fun _ _ _ => rfl⟩
      simp [validateControllerRef, hc, hfalse]

/-- A step whose fetch returns an object that the callback refuses: the step returns
the error of the callback right after the fetch. -/
theorem CreateOrUpdate_callback_error {α : Type} [ChildObject α] [DecidableEq α] (obj d : α)
    (f : α → Except ApiError α) (w : World) (e : ApiError)
    (hg : (Get (ObjectKeyFromObject obj) w : Except ApiError α × World).1 = Except.ok d)
    (hf : f d = Except.error e) :
    CreateOrUpdate obj f w = (Except.error e,
      w.record Verb.get (KubeObject.kind α) (ObjectKeyFromObject obj) none w.cluster) ∧
    KubeObject.lookup w.cluster (ObjectKeyFromObject obj) = some d := by
  rcases @Get_cases α _ (ObjectKeyFromObject obj) w with ⟨o, hl, _, hget⟩ | ⟨e1, _, hget⟩
  · rw [hget] at hg
    simp only [Except.ok.injEq] at hg
    subst hg
    refine ⟨?_, hl⟩
    unfold CreateOrUpdate
    simp [hget, mutate, hf]
  · rw [hget] at hg; simp at hg


/-! ## The claims -/

/-- C1: when the fetch of the parent returns NotFound, `Reconcile` returns the empty
result and no error, the stored objects are what they were, and the only call issued
is that fetch (so no create and no update). -/
theorem Reconcile_deleted_parent_noop (μ : Mutators) (r : MyAppReconciler)
    (req : NamespacedName) (w : World)
    (h : (parentFetch req w).1 = Except.error ApiError.NotFound) :
    (Reconcile μ r req w).result = { Requeue := false, RequeueAfter := 0 } ∧
    (Reconcile μ r req w).err = none ∧
    (Reconcile μ r req w).world.cluster = w.cluster ∧
    (Reconcile μ r req w).world.calls = w.calls ++
      [{ verb := Verb.get, kind := Kind.MyApp, key := req, err := some ApiError.NotFound }] := by
  rw [Reconcile_get_error μ r req w _ h]
  obtain ⟨ge, hw, he, _⟩ := parentFetch_snd req w
  have hge := he _ h
  subst hge
  refine ⟨rfl, rfl, ?_, ?_⟩
  · show (parentFetch req w).2.cluster = _
    rw [hw]; rfl
  · show (parentFetch req w).2.calls = _
    rw [hw]; rfl

/-- Witness of C1: the key `default/demo` on the empty store. -/
theorem Reconcile_deleted_parent_noop_witness :
    (parentFetch demoKey (World.start emptyCluster [])).1 = Except.error ApiError.NotFound ∧
    (Reconcile specMutators demoReconciler demoKey (World.start emptyCluster [])).err = none ∧
    (Reconcile specMutators demoReconciler demoKey (World.start emptyCluster [])).world.calls =
      [{ verb := Verb.get, kind := Kind.MyApp, key := demoKey, err := some ApiError.NotFound }] :=
  ⟨rfl,
   (Reconcile_deleted_parent_noop specMutators demoReconciler demoKey
      (World.start emptyCluster []) rfl).2.1,
   (Reconcile_deleted_parent_noop specMutators demoReconciler demoKey
      (World.start emptyCluster []) rfl).2.2.2⟩

/-- C7: when the fetch of the parent fails with an error other than NotFound,
`Reconcile` returns that error with the empty result, the stored objects are what they
were, and the only call issued is that fetch (so no create and no update). -/
theorem Reconcile_parent_fetch_error (μ : Mutators) (r : MyAppReconciler)
    (req : NamespacedName) (w : World) (e : ApiError)
    (h : (parentFetch req w).1 = Except.error e) (hne : e ≠ ApiError.NotFound) :
    (Reconcile μ r req w).err = some e ∧
    (Reconcile μ r req w).result = { Requeue := false, RequeueAfter := 0 } ∧
    (Reconcile μ r req w).world.cluster = w.cluster ∧
    (Reconcile μ r req w).world.calls = w.calls ++
      [{ verb := Verb.get, kind := Kind.MyApp, key := req, err := some e }] := by
  rw [Reconcile_get_error μ r req w _ h]
  obtain ⟨ge, hw, he, _⟩ := parentFetch_snd req w
  have hge := he _ h
  subst hge
  refine ⟨?_, rfl, ?_, ?_⟩
  · simp [IgnoreNotFound, hne]
  · show (parentFetch req w).2.cluster = _
    rw [hw]; rfl
  · show (parentFetch req w).2.calls = _
    rw [hw]; rfl

/-- Witness of C7: the store is unavailable (503) when the parent is fetched. -/
theorem Reconcile_parent_fetch_error_witness :
    (parentFetch demoKey (World.start demoCluster [some (ApiError.Unavailable 503)])).1
      = Except.error (ApiError.Unavailable 503) ∧
    (Reconcile specMutators demoReconciler demoKey
      (World.start demoCluster [some (ApiError.Unavailable 503)])).err
      = some (ApiError.Unavailable 503) :=
  ⟨rfl,
   (Reconcile_parent_fetch_error specMutators demoReconciler demoKey
      (World.start demoCluster [some (ApiError.Unavailable 503)]) (ApiError.Unavailable 503)
      rfl (by decide)).1⟩

/-- C3: after a successful `Reconcile` of a fetched parent the store holds a Deployment
and a Service under the key of the parent, and each is what the ownership binder
returns on the output of the mutator of its kind, run on the baseline fetched for it:
the stored child, or the empty object with the name and namespace of the parent. -/
theorem Reconcile_convergence (μ : Mutators) (r : MyAppReconciler) (req : NamespacedName)
    (w : World) (myapp : MyApp)
    (hget : (parentFetch req w).1 = Except.ok myapp)
    (hok : (Reconcile μ r req w).err = none) :
    ∃ d s,
      (Reconcile μ r req w).world.cluster.Deployments (ObjectKeyFromObject myapp) = some d ∧
      (Reconcile μ r req w).world.cluster.Services (ObjectKeyFromObject myapp) = some s ∧
      SetControllerReference myapp.ObjectMeta
        (μ.MutateDeployment myapp
          ((w.cluster.Deployments (ObjectKeyFromObject myapp)).getD (newDeployment myapp)))
        r.Scheme = Except.ok d ∧
      SetControllerReference myapp.ObjectMeta
        (μ.MutateService myapp
          ((w.cluster.Services (ObjectKeyFromObject myapp)).getD (newService myapp)))
        r.Scheme = Except.ok s := by
  obtain ⟨d, s, _, hd, hs, hmd, hms⟩ := Reconcile_ok_facts μ r req w myapp hget hok
  exact ⟨d, s, hd, hs, (mutate_key _ _ _ _ hmd).1, (mutate_key _ _ _ _ hms).1⟩

/-- Witness of C3: the scenario of the specification, reconciled from a store that holds
the parent only. -/
theorem Reconcile_convergence_witness :
    (parentFetch demoKey (World.start demoCluster [])).1 = Except.ok demoApp ∧
    (Reconcile specMutators demoReconciler demoKey (World.start demoCluster [])).err = none ∧
    ∃ d s,
      (Reconcile specMutators demoReconciler demoKey
        (World.start demoCluster [])).world.cluster.Deployments (ObjectKeyFromObject demoApp)
        = some d ∧
      (Reconcile specMutators demoReconciler demoKey
        (World.start demoCluster [])).world.cluster.Services (ObjectKeyFromObject demoApp)
        = some s ∧
      SetControllerReference demoApp.ObjectMeta
        (specMutators.MutateDeployment demoApp
          (((World.start demoCluster []).cluster.Deployments
            (ObjectKeyFromObject demoApp)).getD (newDeployment demoApp)))
        demoReconciler.Scheme = Except.ok d ∧
      SetControllerReference demoApp.ObjectMeta
        (specMutators.MutateService demoApp
          (((World.start demoCluster []).cluster.Services
            (ObjectKeyFromObject demoApp)).getD (newService demoApp)))
        demoReconciler.Scheme = Except.ok s :=
  ⟨rfl, rfl,
   Reconcile_convergence specMutators demoReconciler demoKey (World.start demoCluster [])
     demoApp rfl rfl⟩

/-- C4: after a successful `Reconcile` of a fetched parent, the controller reference of
the Deployment and of the Service stored under the key of the parent names that parent:
the kind the scheme registers for it, its name and its unique id. -/
theorem Reconcile_ownership (μ : Mutators) (r : MyAppReconciler) (req : NamespacedName)
    (w : World) (myapp : MyApp)
    (hget : (parentFetch req w).1 = Except.ok myapp)
    (hok : (Reconcile μ r req w).err = none) :
    ∃ gvk d s refd refs,
      r.Scheme = [gvk] ∧
      (Reconcile μ r req w).world.cluster.Deployments (ObjectKeyFromObject myapp) = some d ∧
      (Reconcile μ r req w).world.cluster.Services (ObjectKeyFromObject myapp) = some s ∧
      GetControllerOf d.ObjectMeta.OwnerReferences = some refd ∧
      GetControllerOf s.ObjectMeta.OwnerReferences = some refs ∧
      refd.Controller = true ∧ refd.Group = gvk.Group ∧ refd.Kind = gvk.Kind ∧
      refd.Name = myapp.ObjectMeta.Name ∧ refd.UID = myapp.ObjectMeta.UID ∧
      refs.Controller = true ∧ refs.Group = gvk.Group ∧ refs.Kind = gvk.Kind ∧
      refs.Name = myapp.ObjectMeta.Name ∧ refs.UID = myapp.ObjectMeta.UID := by
  obtain ⟨d, s, _, hd, hs, hmd, hms⟩ := Reconcile_ok_facts μ r req w myapp hget hok
  obtain ⟨gvk, hg, hcd⟩ := SetControllerReference_controller _ _ _ _ (mutate_key _ _ _ _ hmd).1
  obtain ⟨gvk2, hg2, hcs⟩ := SetControllerReference_controller _ _ _ _ (mutate_key _ _ _ _ hms).1
  rw [hg] at hg2
  simp only [List.cons.injEq, and_true] at hg2
  subst hg2
  exact ⟨gvk, d, s, _, _, hg, hd, hs, hcd, hcs, rfl, rfl, rfl, rfl, rfl, rfl, rfl, rfl, rfl, rfl⟩

/-- Witness of C4: the scenario of the specification. -/
theorem Reconcile_ownership_witness :
    (parentFetch demoKey (World.start demoCluster [])).1 = Except.ok demoApp ∧
    (Reconcile specMutators demoReconciler demoKey (World.start demoCluster [])).err = none ∧
    ∃ gvk d s refd refs,
      demoReconciler.Scheme = [gvk] ∧
      (Reconcile specMutators demoReconciler demoKey
        (World.start demoCluster [])).world.cluster.Deployments (ObjectKeyFromObject demoApp)
        = some d ∧
      (Reconcile specMutators demoReconciler demoKey
        (World.start demoCluster [])).world.cluster.Services (ObjectKeyFromObject demoApp)
        = some s ∧
      GetControllerOf d.ObjectMeta.OwnerReferences = some refd ∧
      GetControllerOf s.ObjectMeta.OwnerReferences = some refs ∧
      refd.Controller = true ∧ refd.Group = gvk.Group ∧ refd.Kind = gvk.Kind ∧
      refd.Name = demoApp.ObjectMeta.Name ∧ refd.UID = demoApp.ObjectMeta.UID ∧
      refs.Controller = true ∧ refs.Group = gvk.Group ∧ refs.Kind = gvk.Kind ∧
      refs.Name = demoApp.ObjectMeta.Name ∧ refs.UID = demoApp.ObjectMeta.UID :=
  ⟨rfl, rfl,
   Reconcile_ownership specMutators demoReconciler demoKey (World.start demoCluster [])
     demoApp rfl rfl⟩


/-- The mutators modelled from the specification are stable. -/
theorem specMutators_stable : specMutators.Stable :=
  ⟨fun _ _ _ => rfl, fun _ _ _ => rfl⟩

/-- C2: when `Reconcile` has succeeded for a fetched parent and is invoked again on the
store it left, with nothing changed in between and no fault of the store, the second
invocation succeeds, issues three fetches and no write, leaves the store as it is, and
logs "unchanged" for the Deployment and for the Service.  The mutators, which the
repository defines outside the controller, are taken to be stable on their own output. -/
theorem Reconcile_idempotent (μ : Mutators) (r : MyAppReconciler) (req : NamespacedName)
    (w : World) (myapp : MyApp) (hμ : μ.Stable)
    (hget : (parentFetch req w).1 = Except.ok myapp)
    (hok : (Reconcile μ r req w).err = none) :
    (Reconcile μ r req (World.start (Reconcile μ r req w).world.cluster [])).err = none ∧
    (Reconcile μ r req (World.start (Reconcile μ r req w).world.cluster [])).infos =
      [(Kind.Deployment, OperationResult.unchanged), (Kind.Service, OperationResult.unchanged)] ∧
    (Reconcile μ r req (World.start (Reconcile μ r req w).world.cluster [])).world.calls =
      [{ verb := Verb.get, kind := Kind.MyApp, key := req, err := none },
       { verb := Verb.get, kind := Kind.Deployment, key := ObjectKeyFromObject myapp, err := none },
       { verb := Verb.get, kind := Kind.Service, key := ObjectKeyFromObject myapp, err := none }] ∧
    (Reconcile μ r req (World.start (Reconcile μ r req w).world.cluster [])).world.cluster =
      (Reconcile μ r req w).world.cluster := by
  obtain ⟨d, s, hmy, hd, hs, hmd, hms⟩ := Reconcile_ok_facts μ r req w myapp hget hok
  obtain ⟨_, _, _, hpar⟩ := parentFetch_snd req w
  have hparent := (hpar myapp hget).2
  generalize (Reconcile μ r req w).world.cluster = c at hmy hd hs ⊢
  have hfd := mutate_fixed myapp.ObjectMeta (μ.MutateDeployment myapp) r.Scheme _ _ d
    (fun x l => hμ.1 myapp x l) hmd
  have hfs := mutate_fixed myapp.ObjectMeta (μ.MutateService myapp) r.Scheme _ _ s
    (fun x l => hμ.2 myapp x l) hms
  -- the second invocation, step by step
  have h1 : parentFetch req (World.start c []) = (Except.ok myapp,
      (World.start c []).record Verb.get Kind.MyApp req none c) :=
    @Get_of_lookup MyApp _ req (World.start c []) myapp rfl (by
      show c.MyApps req = some myapp
      rw [hmy]; exact hparent)
  have h2 : deploymentStep μ r myapp ((World.start c []).record Verb.get Kind.MyApp req none c)
      = (Except.ok OperationResult.unchanged,
          ((World.start c []).record Verb.get Kind.MyApp req none c).record Verb.get
            Kind.Deployment (ObjectKeyFromObject myapp) none c) :=
    CreateOrUpdate_unchanged (newDeployment myapp) d (deploymentMutateFn μ r myapp) _ rfl hd hfd
  have h3 : serviceStep μ r myapp
      (((World.start c []).record Verb.get Kind.MyApp req none c).record Verb.get
            Kind.Deployment (ObjectKeyFromObject myapp) none c)
      = (Except.ok OperationResult.unchanged,
          (((World.start c []).record Verb.get Kind.MyApp req none c).record Verb.get
            Kind.Deployment (ObjectKeyFromObject myapp) none c).record Verb.get
            Kind.Service (ObjectKeyFromObject myapp) none c) :=
    CreateOrUpdate_unchanged (newService myapp) s (serviceMutateFn μ r myapp) _ rfl hs hfs
  rw [Reconcile_both_ok μ r req (World.start c []) myapp OperationResult.unchanged
    OperationResult.unchanged (by rw [h1]) (by rw [h1, h2]) (by rw [h1, h2, h3])]
  rw [h1, h2, h3]
  exact ⟨rfl, rfl, rfl, rfl⟩

/-- Witness of C2: the scenario of the specification, reconciled twice. -/
theorem Reconcile_idempotent_witness :
    specMutators.Stable ∧
    (parentFetch demoKey (World.start demoCluster [])).1 = Except.ok demoApp ∧
    (Reconcile specMutators demoReconciler demoKey (World.start demoCluster [])).err = none ∧
    (Reconcile specMutators demoReconciler demoKey (World.start
      (Reconcile specMutators demoReconciler demoKey
        (World.start demoCluster [])).world.cluster [])).infos =
      [(Kind.Deployment, OperationResult.unchanged), (Kind.Service, OperationResult.unchanged)] :=
  ⟨specMutators_stable, rfl, rfl,
   (Reconcile_idempotent specMutators demoReconciler demoKey (World.start demoCluster [])
     demoApp specMutators_stable rfl rfl).2.1⟩


/-- C10: one invocation of `Reconcile` issues at most one write for the Deployment child
and at most one for the Service child, no write for the parent (whose table is left as
it is) and no delete; and on every path the result it returns is the empty one: no
requeue, no delay. -/
theorem Reconcile_writes_bounded (μ : Mutators) (r : MyAppReconciler) (req : NamespacedName)
    (w : World) :
    ∃ cs, (Reconcile μ r req w).world.calls = w.calls ++ cs ∧
      (writesOf Kind.Deployment cs).length ≤ 1 ∧
      (writesOf Kind.Service cs).length ≤ 1 ∧
      writesOf Kind.MyApp cs = [] ∧
      (∀ c ∈ cs, c.verb ≠ Verb.delete) ∧
      (Reconcile μ r req w).world.cluster.MyApps = w.cluster.MyApps ∧
      (Reconcile μ r req w).result = { Requeue := false, RequeueAfter := 0 } := by
  obtain ⟨cs, hcs, hres, hshape⟩ := Reconcile_trace μ r req w
  refine ⟨cs, hcs, ?_, ?_, ?_, ?_, (Reconcile_frame μ r req w).1, hres⟩
  all_goals
    rcases hshape with ⟨e, _, h, _⟩ | ⟨myapp, csd, css, dres, _, _, h, htd, hrest⟩
    · subst h
      simp [writesOf, Verb.isWrite]
    · subst h
      have hd := htd.shape
      have hs : (∀ c ∈ css, c.kind = Kind.Service ∧ c.key = ObjectKeyFromObject myapp ∧
            (c.verb = Verb.get ∨ c.verb = Verb.create ∨ c.verb = Verb.update)) ∧
          (∀ J, (writesOf J css).length ≤ 1) := by
        rcases hrest with ⟨e, _, h, _⟩ | ⟨or1, sres, _, hts, _⟩
        · subst h
          simp [writesOf]
        · exact hts.shape
      first
        | (rw [writesOf_get_cons, writesOf_append,
            writesOf_of_kind Kind.Deployment Kind.Service css (fun c hc => (hs.1 c hc).1)
              (by decide)]
           simpa using hd.2 Kind.Deployment)
        | (rw [writesOf_get_cons, writesOf_append,
            writesOf_of_kind Kind.Service Kind.Deployment csd (fun c hc => (hd.1 c hc).1)
              (by decide)]
           simpa using hs.2 Kind.Service)
        | (rw [writesOf_get_cons, writesOf_append,
            writesOf_of_kind Kind.MyApp Kind.Deployment csd (fun c hc => (hd.1 c hc).1)
              (by decide),
            writesOf_of_kind Kind.MyApp Kind.Service css (fun c hc => (hs.1 c hc).1)
              (by decide)]
           rfl)
        | (intro c hc
           simp only [List.mem_cons, List.mem_append] at hc
           rcases hc with hc | hc | hc
           · subst hc; simp
           · rcases (hd.1 c hc).2.2 with h | h | h <;> simp [h]
           · rcases (hs.1 c hc).2.2 with h | h | h <;> simp [h])

/-- C9: every call `Reconcile` issues on a child kind is made under the name and
namespace of the parent it fetched, and every Deployment and Service stored under
another key is after the call what it was before. -/
theorem Reconcile_touches_parent_key_only (μ : Mutators) (r : MyAppReconciler)
    (req : NamespacedName) (w : World) :
    ∃ cs, (Reconcile μ r req w).world.calls = w.calls ++ cs ∧
      (∀ c ∈ cs, c.kind = Kind.MyApp → c.key = req ∧ c.verb = Verb.get) ∧
      (∀ c ∈ cs, c.kind ≠ Kind.MyApp →
        ∃ myapp, (parentFetch req w).1 = Except.ok myapp ∧
          c.key = { Namespace := myapp.ObjectMeta.Namespace, Name := myapp.ObjectMeta.Name }) ∧
      (∀ k, (∀ myapp, (parentFetch req w).1 = Except.ok myapp →
            k ≠ { Namespace := myapp.ObjectMeta.Namespace, Name := myapp.ObjectMeta.Name }) →
        (Reconcile μ r req w).world.cluster.Deployments k = w.cluster.Deployments k ∧
        (Reconcile μ r req w).world.cluster.Services k = w.cluster.Services k) := by
  obtain ⟨cs, hcs, _, hshape⟩ := Reconcile_trace μ r req w
  refine ⟨cs, hcs, ?_, ?_, (Reconcile_frame μ r req w).2⟩
  all_goals
    rcases hshape with ⟨e, _, h, _⟩ | ⟨myapp, csd, css, dres, hget, _, h, htd, hrest⟩
    · subst h
      simp
    · subst h
      have hd := htd.shape.1
      have hs : ∀ c ∈ css, c.kind = Kind.Service ∧ c.key = ObjectKeyFromObject myapp ∧
            (c.verb = Verb.get ∨ c.verb = Verb.create ∨ c.verb = Verb.update) := by
        rcases hrest with ⟨e, _, h, _⟩ | ⟨or1, sres, _, hts, _⟩
        · subst h
          simp
        · exact hts.shape.1
      intro c hc
      simp only [List.mem_cons, List.mem_append] at hc
      rcases hc with hc | hc | hc
      · subst hc; simp
      · first
          | (intro hk; rw [(hd c hc).1] at hk; exact absurd hk (by decide))
          | (intro _; exact ⟨myapp, hget, (hd c hc).2.1⟩)
      · first
          | (intro hk; rw [(hs c hc).1] at hk; exact absurd hk (by decide))
          | (intro _; exact ⟨myapp, hget, (hs c hc).2.1⟩)

/-- C6: when the create-or-update step of the Deployment child fails, `Reconcile` returns
exactly the error of that step with the empty result, logs no outcome, issues no call
at all on the Service kind, and leaves every stored Service as it was. -/
theorem Reconcile_deployment_failure_aborts (μ : Mutators) (r : MyAppReconciler)
    (req : NamespacedName) (w : World) (myapp : MyApp) (e : ApiError)
    (hget : (parentFetch req w).1 = Except.ok myapp)
    (hd : (deploymentStep μ r myapp (parentFetch req w).2).1 = Except.error e) :
    (Reconcile μ r req w).err = some e ∧
    (Reconcile μ r req w).result = { Requeue := false, RequeueAfter := 0 } ∧
    (Reconcile μ r req w).infos = [] ∧
    (Reconcile μ r req w).world.cluster.Services = w.cluster.Services ∧
    ∃ cs, (Reconcile μ r req w).world.calls = w.calls ++ cs ∧
      ∀ c ∈ cs, c.kind ≠ Kind.Service := by
  obtain ⟨csd, hcd, htd⟩ := CreateOrUpdate_trace (newDeployment myapp)
    (deploymentMutateFn μ r myapp) (parentFetch req w).2
  obtain ⟨gp, hw1, _, hpo⟩ := parentFetch_snd req w
  have hgp := (hpo myapp hget).1
  subst hgp
  rw [Reconcile_deployment_error μ r req w myapp e hget hd]
  refine ⟨rfl, rfl, rfl, ?_, ApiCall.mk Verb.get Kind.MyApp req none :: csd, ?_, ?_⟩
  · show (deploymentStep μ r myapp (parentFetch req w).2).2.cluster.Services = _
    rw [(deploymentStep_frame μ r myapp (parentFetch req w).2).2.1, parentFetch_cluster]
  · show (deploymentStep μ r myapp (parentFetch req w).2).2.calls = _
    rw [deploymentStep, hcd, hw1]
    simp [World.record]
  · intro c hc
    simp only [List.mem_cons] at hc
    rcases hc with hc | hc
    · subst hc; simp
    · have hk : c.kind = Kind.Deployment := (htd.shape.1 c hc).1
      rw [hk]; decide

/-- Witness of C6: the store is unavailable (503) when the Deployment is fetched. -/
theorem Reconcile_deployment_failure_aborts_witness :
    (parentFetch demoKey (World.start demoCluster [none, some (ApiError.Unavailable 503)])).1
      = Except.ok demoApp ∧
    (deploymentStep specMutators demoReconciler demoApp
      (parentFetch demoKey
        (World.start demoCluster [none, some (ApiError.Unavailable 503)])).2).1
      = Except.error (ApiError.Unavailable 503) ∧
    (Reconcile specMutators demoReconciler demoKey
      (World.start demoCluster [none, some (ApiError.Unavailable 503)])).err
      = some (ApiError.Unavailable 503) ∧
    (Reconcile specMutators demoReconciler demoKey
      (World.start demoCluster [none, some (ApiError.Unavailable 503)])).world.cluster.Services
      = demoCluster.Services :=
  ⟨rfl, rfl,
   (Reconcile_deployment_failure_aborts specMutators demoReconciler demoKey
      (World.start demoCluster [none, some (ApiError.Unavailable 503)]) demoApp
      (ApiError.Unavailable 503) rfl rfl).1,
   (Reconcile_deployment_failure_aborts specMutators demoReconciler demoKey
      (World.start demoCluster [none, some (ApiError.Unavailable 503)]) demoApp
      (ApiError.Unavailable 503) rfl rfl).2.2.2.1⟩


/-- In the calls of a step, a failed update comes right after the successful fetch, ends
the step, and is what the step returns. -/
theorem StepTrace.failed_update {K : Kind} {key : NamespacedName}
    {res : Except ApiError OperationResult} {cs : List ApiCall} (h : StepTrace K key res cs)
    (c : ApiCall) (e : ApiError) (hc : c ∈ cs) (hv : c.verb = Verb.update)
    (he : c.err = some e) :
    res = Except.error e ∧ cs = [ApiCall.mk Verb.get K key none, c] ∧ c.kind = K ∧
      c.key = key := by
  obtain ⟨ge, ws, hcs, _, _, hws⟩ := h
  subst hcs
  simp only [List.mem_cons] at hc
  rcases hc with hc | hc
  · subst hc; simp at hv
  · rcases hws with hws | ⟨v, we, _, hws, hu, hwe, _⟩
    · subst hws; simp at hc
    · subst hws
      simp only [List.mem_singleton] at hc
      subst hc
      simp only at hv he
      subst hv
      exact ⟨hwe e he, by rw [hu rfl], rfl, rfl⟩

/-- C5, as the code has it: an update that fails, with a conflict or with any other
error, is not retried.  It is the last call `Reconcile` issues, the only earlier call
on that child is its one successful fetch, and `Reconcile` returns the error of the
update with the empty result. -/
theorem Reconcile_failed_update_not_retried (μ : Mutators) (r : MyAppReconciler)
    (req : NamespacedName) (w : World) (cs : List ApiCall) (c : ApiCall) (e : ApiError)
    (hcs : (Reconcile μ r req w).world.calls = w.calls ++ cs)
    (hc : c ∈ cs) (hv : c.verb = Verb.update) (he : c.err = some e) :
    (Reconcile μ r req w).err = some e ∧
    (Reconcile μ r req w).result = { Requeue := false, RequeueAfter := 0 } ∧
    ∃ pre, cs = pre ++ [c] ∧
      pre.filter (fun p => decide (p.kind = c.kind)) = [ApiCall.mk Verb.get c.kind c.key none] := by
  obtain ⟨cs1, hcs1, hres, hshape⟩ := Reconcile_trace μ r req w
  have hcseq : cs = cs1 := by
    rw [hcs] at hcs1
    exact List.append_cancel_left hcs1
  subst hcseq
  refine ⟨?_, hres, ?_⟩
  all_goals
    rcases hshape with ⟨e0, _, h, _⟩ | ⟨myapp, csd, css, dres, _, _, h, htd, hrest⟩
    · subst h
      simp only [List.mem_singleton] at hc
      subst hc
      simp at hv
    · subst h
      simp only [List.mem_cons, List.mem_append] at hc
      rcases hc with hc | hc | hc
      · subst hc; simp at hv
      · obtain ⟨hr, hcsd, hk, _⟩ := htd.failed_update c e hc hv he
        rcases hrest with ⟨e1, h1, hnil, herr, _⟩ | ⟨or1, sres, h1, _⟩
        · rw [hr] at h1
          simp only [Except.error.injEq] at h1
          subst h1
          first
            | exact herr
            | (refine ⟨[ApiCall.mk Verb.get Kind.MyApp req none,
                  ApiCall.mk Verb.get Kind.Deployment (ObjectKeyFromObject myapp) none], ?_, ?_⟩
               · rw [hcsd, hnil]; rfl
               · rw [hk]
                 obtain ⟨_, _, hkey⟩ := htd.failed_update c e hc hv he
                 rw [hkey.2]
                 rfl)
        · rw [hr] at h1; simp at h1
      · rcases hrest with ⟨e1, _, hnil, _⟩ | ⟨or1, sres, _, hts, hsr⟩
        · subst hnil; simp at hc
        · obtain ⟨hr, hcss, hk, hkey⟩ := hts.failed_update c e hc hv he
          rcases hsr with ⟨e1, h1, herr⟩ | ⟨or2, h1, _⟩
          · rw [hr] at h1
            simp only [Except.error.injEq] at h1
            subst h1
            first
              | exact herr
              | (refine ⟨ApiCall.mk Verb.get Kind.MyApp req none :: (csd ++
                    [ApiCall.mk Verb.get Kind.Service (ObjectKeyFromObject myapp) none]), ?_, ?_⟩
                 · rw [hcss]; simp
                 · rw [hk, hkey]
                   have hd := htd.shape.1
                   simp only [List.filter_cons, List.filter_append, List.filter_nil]
                   have hnone : csd.filter (fun p => decide (p.kind = Kind.Service)) = [] := by
                     simp only [List.filter_eq_nil_iff]
                     intro p hp
                     simp [(hd p hp).1]
                   rw [hnone]
                   simp)
          · rw [hr] at h1; simp at h1


/-- Witness of C5: the update of the stale Deployment of `demo` meets a conflict. -/
theorem Reconcile_failed_update_not_retried_witness :
    (Reconcile specMutators demoReconciler demoKey
      (World.start (clusterWithDeployment [demoOwner])
        [none, none, some ApiError.Conflict])).err = some ApiError.Conflict ∧
    ∃ pre,
      [ApiCall.mk Verb.get Kind.MyApp demoKey none,
       ApiCall.mk Verb.get Kind.Deployment demoKey none,
       ApiCall.mk Verb.update Kind.Deployment demoKey (some ApiError.Conflict)]
        = pre ++ [ApiCall.mk Verb.update Kind.Deployment demoKey (some ApiError.Conflict)] ∧
      pre.filter (fun p => decide (p.kind = Kind.Deployment))
        = [ApiCall.mk Verb.get Kind.Deployment demoKey none] :=
  ⟨(Reconcile_failed_update_not_retried specMutators demoReconciler demoKey
      (World.start (clusterWithDeployment [demoOwner]) [none, none, some ApiError.Conflict])
      [ApiCall.mk Verb.get Kind.MyApp demoKey none,
       ApiCall.mk Verb.get Kind.Deployment demoKey none,
       ApiCall.mk Verb.update Kind.Deployment demoKey (some ApiError.Conflict)]
      (ApiCall.mk Verb.update Kind.Deployment demoKey (some ApiError.Conflict))
      ApiError.Conflict (by decide) (by decide) rfl rfl).1,
   (Reconcile_failed_update_not_retried specMutators demoReconciler demoKey
      (World.start (clusterWithDeployment [demoOwner]) [none, none, some ApiError.Conflict])
      [ApiCall.mk Verb.get Kind.MyApp demoKey none,
       ApiCall.mk Verb.get Kind.Deployment demoKey none,
       ApiCall.mk Verb.update Kind.Deployment demoKey (some ApiError.Conflict)]
      (ApiCall.mk Verb.update Kind.Deployment demoKey (some ApiError.Conflict))
      ApiError.Conflict (by decide) (by decide) rfl rfl).2.2⟩

/-- C5 fails on the code.  The stale Deployment of `demo` is fetched, mutated and
updated; the update meets a conflict.  `Reconcile` issues no further call (no second
fetch, no second update) and returns the conflict, although a second attempt would
succeed: `Reconcile` run again on the world it left updates the Deployment. -/
theorem Reconcile_conflict_not_recovered :
    (Reconcile specMutators demoReconciler demoKey
      (World.start (clusterWithDeployment [demoOwner])
        [none, none, some ApiError.Conflict])).err = some ApiError.Conflict ∧
    (Reconcile specMutators demoReconciler demoKey
      (World.start (clusterWithDeployment [demoOwner])
        [none, none, some ApiError.Conflict])).world.calls =
      [ApiCall.mk Verb.get Kind.MyApp demoKey none,
       ApiCall.mk Verb.get Kind.Deployment demoKey none,
       ApiCall.mk Verb.update Kind.Deployment demoKey (some ApiError.Conflict)] ∧
    (Reconcile specMutators demoReconciler demoKey
      (World.start (Reconcile specMutators demoReconciler demoKey
        (World.start (clusterWithDeployment [demoOwner])
          [none, none, some ApiError.Conflict])).world.cluster
        (Reconcile specMutators demoReconciler demoKey
        (World.start (clusterWithDeployment [demoOwner])
          [none, none, some ApiError.Conflict])).world.faults)).err = none ∧
    (Reconcile specMutators demoReconciler demoKey
      (World.start (Reconcile specMutators demoReconciler demoKey
        (World.start (clusterWithDeployment [demoOwner])
          [none, none, some ApiError.Conflict])).world.cluster
        (Reconcile specMutators demoReconciler demoKey
        (World.start (clusterWithDeployment [demoOwner])
          [none, none, some ApiError.Conflict])).world.faults)).infos =
      [(Kind.Deployment, OperationResult.updated), (Kind.Service, OperationResult.created)] := by
  decide

/-- C8 fails on the code.  The stored Deployment of `demo` is controlled by an earlier
parent of the same group, kind and name, whose unique id differs from that of the
parent reconciled.  Binding does not fail: `Reconcile` succeeds, updates the Deployment,
and the stored Deployment now references the reconciled parent. -/
theorem Reconcile_rebinds_same_name_owner :
    GetControllerOf (storedDeployment [earlierOwner]).ObjectMeta.OwnerReferences
      = some earlierOwner ∧
    earlierOwner.UID ≠ demoApp.ObjectMeta.UID ∧
    (clusterWithDeployment [earlierOwner]).Deployments demoKey
      = some (storedDeployment [earlierOwner]) ∧
    (Reconcile specMutators demoReconciler demoKey
      (World.start (clusterWithDeployment [earlierOwner]) [])).err = none ∧
    (Reconcile specMutators demoReconciler demoKey
      (World.start (clusterWithDeployment [earlierOwner]) [])).world.calls =
      [ApiCall.mk Verb.get Kind.MyApp demoKey none,
       ApiCall.mk Verb.get Kind.Deployment demoKey none,
       ApiCall.mk Verb.update Kind.Deployment demoKey none,
       ApiCall.mk Verb.get Kind.Service demoKey (some ApiError.NotFound),
       ApiCall.mk Verb.create Kind.Service demoKey none] ∧
    ((Reconcile specMutators demoReconciler demoKey
      (World.start (clusterWithDeployment [earlierOwner]) [])).world.cluster.Deployments
        demoKey).map (fun d => d.ObjectMeta.OwnerReferences) = some [demoOwner] := by
  decide


/-- The mutators modelled from the specification leave the metadata alone. -/
theorem specMutators_keepsMeta : specMutators.KeepsMeta :=
  ⟨fun _ _ => rfl, fun _ _ => rfl⟩

theorem referSameObject_eq_false (a b : OwnerReference)
    (h : a.Group ≠ b.Group ∨ a.Kind ≠ b.Kind ∨ a.Name ≠ b.Name) :
    referSameObject a b = false := by
  unfold referSameObject
  rcases h with h | h | h <;> simp [h]

theorem referSameObject_eq_true (a b : OwnerReference)
    (h : a.Group = b.Group ∧ a.Kind = b.Kind ∧ a.Name = b.Name) :
    referSameObject a b = true := by
  unfold referSameObject
  simp [h.1, h.2.1, h.2.2]

/-- The binder accepts an object whose controller has the group, kind and name of the
owner, whatever its unique id; the controller of the object it returns is the
reference to the owner. -/
theorem SetControllerReference_same_name {α : Type} [ChildObject α] (owner : ObjectMeta)
    (o : α) (gvk : GroupVersionKind) (ref : OwnerReference)
    (hns : (KubeObject.getMeta o).Namespace = owner.Namespace)
    (hc : GetControllerOf (KubeObject.getMeta o).OwnerReferences = some ref)
    (hsame : referSameObject ref (NewControllerRef owner gvk) = true) :
    ∃ o1, SetControllerReference owner o [gvk] = Except.ok o1 ∧
      GetControllerOf (KubeObject.getMeta o1).OwnerReferences
        = some (NewControllerRef owner gvk) := by
  have hv : validateControllerRef (KubeObject.getMeta o).OwnerReferences
      (NewControllerRef owner gvk) = Except.ok () := by
    simp [validateControllerRef, hc, hsame]
  refine ⟨ChildObject.setOwnerReferences o
    (upsertOwnerRef (NewControllerRef owner gvk) (KubeObject.getMeta o).OwnerReferences), ?_, ?_⟩
  · unfold SetControllerReference
    rw [hns, validateOwner_same]
    simp only [GVKForObject]
    rw [hv]
  · rw [ChildObject.getMeta_setOwnerReferences]
    exact GetControllerOf_upsertOwnerRef _ _ rfl hv

/-- C8, as the code has it.  The controller reference of a child is the first of its
owner references flagged as controller (`GetControllerOf`).  The mutators, which the
repository defines outside the controller, are taken to leave the metadata of the
child alone.

First part: the Deployment fetched for the parent has a controller reference `ref`
whose API group, kind or name differs from those of the parent.  Then binding fails,
`Reconcile` returns the error of the binder (the already-owned error for `ref` when
the child is in the namespace of the parent and the scheme registers one kind for the
parent), the only calls issued are the two fetches, and the store is left as it was:
the Deployment under the key of the parent is still the one fetched, with `ref` as
its controller reference.

Second part: the same for the Service fetched for the parent once the Deployment step
has succeeded: binding fails, `Reconcile` returns the error of the binder, no write on
the Service kind is issued, every stored Service is what it was, and the Service
under the key of the parent is still the one fetched.

Third part: a controller reference with the API group, kind and name of the parent
is no conflict, whatever its unique id: for a child in the namespace of the parent
and a scheme that registers one kind for the parent, binding succeeds and returns
the child with the reference to the parent as its controller reference. -/
theorem Reconcile_foreign_controller (μ : Mutators) (r : MyAppReconciler)
    (req : NamespacedName) (w : World) (myapp : MyApp) (ref : OwnerReference)
    (hμ : μ.KeepsMeta)
    (hget : (parentFetch req w).1 = Except.ok myapp)
    (hf : ∀ gvk ∈ r.Scheme, ref.Group ≠ gvk.Group ∨ ref.Kind ≠ gvk.Kind ∨
      ref.Name ≠ myapp.ObjectMeta.Name) :
    (∀ d : Deployment,
      (Get (ObjectKeyFromObject myapp) (parentFetch req w).2).1 = Except.ok d →
      GetControllerOf d.ObjectMeta.OwnerReferences = some ref →
        (∃ e, deploymentMutateFn μ r myapp d = Except.error e ∧
          (Reconcile μ r req w).err = some e ∧
          (d.ObjectMeta.Namespace = myapp.ObjectMeta.Namespace → ∀ gvk, r.Scheme = [gvk] →
            e = ApiError.AlreadyOwned ref)) ∧
        (Reconcile μ r req w).world.calls = w.calls ++
          [ApiCall.mk Verb.get Kind.MyApp req none,
           ApiCall.mk Verb.get Kind.Deployment (ObjectKeyFromObject myapp) none] ∧
        (Reconcile μ r req w).world.cluster = w.cluster ∧
        w.cluster.Deployments (ObjectKeyFromObject myapp) = some d ∧
        (Reconcile μ r req w).world.cluster.Deployments (ObjectKeyFromObject myapp) = some d) ∧
    (∀ (s : Service) (or1 : OperationResult),
      (deploymentStep μ r myapp (parentFetch req w).2).1 = Except.ok or1 →
      (Get (ObjectKeyFromObject myapp)
        (deploymentStep μ r myapp (parentFetch req w).2).2).1 = Except.ok s →
      GetControllerOf s.ObjectMeta.OwnerReferences = some ref →
        (∃ e, serviceMutateFn μ r myapp s = Except.error e ∧
          (Reconcile μ r req w).err = some e ∧
          (s.ObjectMeta.Namespace = myapp.ObjectMeta.Namespace → ∀ gvk, r.Scheme = [gvk] →
            e = ApiError.AlreadyOwned ref)) ∧
        (∃ cs, (Reconcile μ r req w).world.calls = w.calls ++ cs ∧
          writesOf Kind.Service cs = []) ∧
        (Reconcile μ r req w).world.cluster.Services = w.cluster.Services ∧
        w.cluster.Services (ObjectKeyFromObject myapp) = some s ∧
        (Reconcile μ r req w).world.cluster.Services (ObjectKeyFromObject myapp) = some s) ∧
    (∀ (gvk : GroupVersionKind) (same : OwnerReference), r.Scheme = [gvk] →
      same.Group = gvk.Group ∧ same.Kind = gvk.Kind ∧ same.Name = myapp.ObjectMeta.Name →
      (∀ d : Deployment, d.ObjectMeta.Namespace = myapp.ObjectMeta.Namespace →
        GetControllerOf d.ObjectMeta.OwnerReferences = some same →
        ∃ d1, deploymentMutateFn μ r myapp d = Except.ok d1 ∧
          GetControllerOf d1.ObjectMeta.OwnerReferences
            = some (NewControllerRef myapp.ObjectMeta gvk)) ∧
      (∀ s : Service, s.ObjectMeta.Namespace = myapp.ObjectMeta.Namespace →
        GetControllerOf s.ObjectMeta.OwnerReferences = some same →
        ∃ s1, serviceMutateFn μ r myapp s = Except.ok s1 ∧
          GetControllerOf s1.ObjectMeta.OwnerReferences
            = some (NewControllerRef myapp.ObjectMeta gvk))) := by
  obtain ⟨gp, hw1, _, hpo⟩ := parentFetch_snd req w
  have hgp := (hpo myapp hget).1
  subst hgp
  have hc1 := parentFetch_cluster req w
  have hf2 : ∀ gvk ∈ r.Scheme,
      referSameObject ref (NewControllerRef myapp.ObjectMeta gvk) = false :=
    fun gvk hg => referSameObject_eq_false _ _ (hf gvk hg)
  refine ⟨?_, ?_, ?_⟩
  · intro d hgd hcd
    have hmeta : KubeObject.getMeta (μ.MutateDeployment myapp d) = d.ObjectMeta := hμ.1 myapp d
    obtain ⟨e, hfe, hkind⟩ := SetControllerReference_foreign myapp.ObjectMeta
      (μ.MutateDeployment myapp d) r.Scheme ref (by rw [hmeta]; exact hcd) hf2
    obtain ⟨hstep, hl⟩ := CreateOrUpdate_callback_error (newDeployment myapp) d
      (deploymentMutateFn μ r myapp) (parentFetch req w).2 e hgd hfe
    have hd : (deploymentStep μ r myapp (parentFetch req w).2).1 = Except.error e := by
      rw [deploymentStep, hstep]
    have hl2 : w.cluster.Deployments (ObjectKeyFromObject myapp) = some d := by
      rw [hc1] at hl
      exact hl
    have hcl : (deploymentStep μ r myapp (parentFetch req w).2).2.cluster = w.cluster := by
      rw [deploymentStep, hstep]
      exact hc1
    rw [Reconcile_deployment_error μ r req w myapp e hget hd]
    refine ⟨⟨e, hfe, rfl, ?_⟩, ?_, hcl, hl2, ?_⟩
    · intro hns gvk hs
      refine hkind ?_ gvk hs
      rw [hmeta, hns]
      exact validateOwner_same _
    · show (deploymentStep μ r myapp (parentFetch req w).2).2.calls = _
      rw [deploymentStep, hstep, hw1]
      simp [World.record]
      exact ⟨rfl, rfl⟩
    · show (deploymentStep μ r myapp (parentFetch req w).2).2.cluster.Deployments _ = _
      rw [hcl]
      exact hl2
  · intro s or1 hds hgs hcs
    have hmeta : KubeObject.getMeta (μ.MutateService myapp s) = s.ObjectMeta := hμ.2 myapp s
    obtain ⟨e, hfe, hkind⟩ := SetControllerReference_foreign myapp.ObjectMeta
      (μ.MutateService myapp s) r.Scheme ref (by rw [hmeta]; exact hcs) hf2
    obtain ⟨hstep, hl⟩ := CreateOrUpdate_callback_error (newService myapp) s
      (serviceMutateFn μ r myapp) (deploymentStep μ r myapp (parentFetch req w).2).2 e hgs hfe
    have hs : (serviceStep μ r myapp (deploymentStep μ r myapp (parentFetch req w).2).2).1
        = Except.error e := by
      rw [serviceStep, hstep]
    obtain ⟨csd, hcd, htd⟩ := CreateOrUpdate_trace (newDeployment myapp)
      (deploymentMutateFn μ r myapp) (parentFetch req w).2
    have hfr := (deploymentStep_frame μ r myapp (parentFetch req w).2).2.1
    have hl2 : (deploymentStep μ r myapp (parentFetch req w).2).2.cluster.Services
        (ObjectKeyFromObject myapp) = some s := hl
    have hcl : (serviceStep μ r myapp
        (deploymentStep μ r myapp (parentFetch req w).2).2).2.cluster.Services
        = w.cluster.Services := by
      rw [serviceStep, hstep]
      show (deploymentStep μ r myapp (parentFetch req w).2).2.cluster.Services = _
      rw [hfr, hc1]
    rw [hfr, hc1] at hl2
    rw [Reconcile_service_error μ r req w myapp or1 e hget hds hs]
    refine ⟨⟨e, hfe, rfl, ?_⟩, ⟨ApiCall.mk Verb.get Kind.MyApp req none :: (csd ++
        [ApiCall.mk Verb.get Kind.Service (ObjectKeyFromObject myapp) none]), ?_, ?_⟩,
        hcl, hl2, ?_⟩
    · intro hns gvk hsch
      refine hkind ?_ gvk hsch
      rw [hmeta, hns]
      exact validateOwner_same _
    · show (serviceStep μ r myapp (deploymentStep μ r myapp (parentFetch req w).2).2).2.calls = _
      rw [serviceStep, hstep]
      show (deploymentStep μ r myapp (parentFetch req w).2).2.calls ++ _ = _
      rw [deploymentStep, hcd, hw1]
      simp [World.record]
      exact ⟨rfl, rfl⟩
    · rw [writesOf_get_cons, writesOf_append,
        writesOf_of_kind Kind.Service Kind.Deployment csd (fun c hc => (htd.shape.1 c hc).1)
          (by decide)]
      rfl
    · show (serviceStep μ r myapp
        (deploymentStep μ r myapp (parentFetch req w).2).2).2.cluster.Services _ = _
      rw [hcl]
      exact hl2
  · intro gvk same hsch hsame
    have hsame2 : referSameObject same (NewControllerRef myapp.ObjectMeta gvk) = true :=
      referSameObject_eq_true _ _ hsame
    refine ⟨?_, ?_⟩
    · intro d hns hcd
      have hmeta : KubeObject.getMeta (μ.MutateDeployment myapp d) = d.ObjectMeta :=
        hμ.1 myapp d
      obtain ⟨d1, h1, h2⟩ := SetControllerReference_same_name myapp.ObjectMeta
        (μ.MutateDeployment myapp d) gvk same (by rw [hmeta]; exact hns)
        (by rw [hmeta]; exact hcd) hsame2
      exact ⟨d1, by rw [deploymentMutateFn, hsch]; exact h1, h2⟩
    · intro s hns hcs
      have hmeta : KubeObject.getMeta (μ.MutateService myapp s) = s.ObjectMeta :=
        hμ.2 myapp s
      obtain ⟨s1, h1, h2⟩ := SetControllerReference_same_name myapp.ObjectMeta
        (μ.MutateService myapp s) gvk same (by rw [hmeta]; exact hns)
        (by rw [hmeta]; exact hcs) hsame2
      exact ⟨s1, by rw [serviceMutateFn, hsch]; exact h1, h2⟩

/-- Witness of C8.  The stored Deployment of `demo` is controlled by an object of another
kind: `Reconcile` issues the two fetches only and leaves the store as it was.  The same
for the stored Service, behind an up-to-date Deployment.  And the binder accepts the
Deployment controlled by the earlier parent of the same name. -/
theorem Reconcile_foreign_controller_witness :
    specMutators.KeepsMeta ∧
    (parentFetch demoKey (World.start (clusterWithDeployment [foreignOwner]) [])).1
      = Except.ok demoApp ∧
    (∀ gvk ∈ demoReconciler.Scheme, foreignOwner.Group ≠ gvk.Group ∨
      foreignOwner.Kind ≠ gvk.Kind ∨ foreignOwner.Name ≠ demoApp.ObjectMeta.Name) ∧
    (Get (ObjectKeyFromObject demoApp)
      (parentFetch demoKey (World.start (clusterWithDeployment [foreignOwner]) [])).2).1
      = Except.ok (storedDeployment [foreignOwner]) ∧
    GetControllerOf (storedDeployment [foreignOwner]).ObjectMeta.OwnerReferences
      = some foreignOwner ∧
    (Reconcile specMutators demoReconciler demoKey
      (World.start (clusterWithDeployment [foreignOwner]) [])).world.calls =
      (World.start (clusterWithDeployment [foreignOwner]) []).calls ++
        [ApiCall.mk Verb.get Kind.MyApp demoKey none,
         ApiCall.mk Verb.get Kind.Deployment (ObjectKeyFromObject demoApp) none] ∧
    (Reconcile specMutators demoReconciler demoKey
      (World.start (clusterWithDeployment [foreignOwner]) [])).world.cluster =
      (World.start (clusterWithDeployment [foreignOwner]) []).cluster ∧
    (parentFetch demoKey (World.start (clusterWithService [foreignOwner]) [])).1
      = Except.ok demoApp ∧
    (deploymentStep specMutators demoReconciler demoApp
      (parentFetch demoKey (World.start (clusterWithService [foreignOwner]) [])).2).1
      = Except.ok OperationResult.unchanged ∧
    (Get (ObjectKeyFromObject demoApp)
      (deploymentStep specMutators demoReconciler demoApp
        (parentFetch demoKey (World.start (clusterWithService [foreignOwner]) [])).2).2).1
      = Except.ok (storedService [foreignOwner]) ∧
    (Reconcile specMutators demoReconciler demoKey
      (World.start (clusterWithService [foreignOwner]) [])).world.cluster.Services =
      (World.start (clusterWithService [foreignOwner]) []).cluster.Services ∧
    (∃ d1, deploymentMutateFn specMutators demoReconciler demoApp
        (storedDeployment [earlierOwner]) = Except.ok d1 ∧
      GetControllerOf d1.ObjectMeta.OwnerReferences
        = some (NewControllerRef demoApp.ObjectMeta myAppGVK)) :=
  ⟨specMutators_keepsMeta, rfl, by decide, rfl, rfl,
   ((Reconcile_foreign_controller specMutators demoReconciler demoKey
      (World.start (clusterWithDeployment [foreignOwner]) []) demoApp foreignOwner
      specMutators_keepsMeta rfl (by decide)).1 (storedDeployment [foreignOwner]) rfl rfl).2.1,
   ((Reconcile_foreign_controller specMutators demoReconciler demoKey
      (World.start (clusterWithDeployment [foreignOwner]) []) demoApp foreignOwner
      specMutators_keepsMeta rfl (by decide)).1 (storedDeployment [foreignOwner]) rfl rfl).2.2.1,
   rfl, rfl, rfl,
   ((Reconcile_foreign_controller specMutators demoReconciler demoKey
      (World.start (clusterWithService [foreignOwner]) []) demoApp foreignOwner
      specMutators_keepsMeta rfl (by decide)).2.1 (storedService [foreignOwner])
      OperationResult.unchanged rfl rfl rfl).2.2.1,
   ((Reconcile_foreign_controller specMutators demoReconciler demoKey
      (World.start (clusterWithDeployment [foreignOwner]) []) demoApp foreignOwner
      specMutators_keepsMeta rfl (by decide)).2.2 myAppGVK earlierOwner rfl
      (by decide)).1 (storedDeployment [earlierOwner]) rfl rfl⟩


end OpDemo
